import Mathlib

/-!
# Formal model of the romaji→katakana conversion in `find_researchers.py`

This file gives a shallow embedding of the name-transliteration part of the
program: the preprocessing and segmentation loop of `roman_to_katakana`, the
override dictionaries `KATAKANA_LASTNAME_OVERRIDE` and
`KATAKANA_FIRSTNAME_OVERRIDE`, the Long-O surname post-processor
`apply_surname_long_o`, and the per-name conversion logic of the local helper
`_kana_parts` inside `aggregate_author_scores`.

Python dict literals with duplicate keys keep the last binding; dictionaries
are therefore embedded as association lists in source order, with a lookup
that prefers later entries.  Python machine strings are embedded as Lean
`String`/`List Char`.
-/

set_option maxRecDepth 100000

/-- Python dict construction and lookup for a dict built from a literal
association list: bindings are inserted left to right and later bindings
overwrite earlier ones, so the accumulator keeps the latest match.
(String keys.) -/
def pyDictGetAux (acc : Option String) : List (String × String) → String → Option String
  | [], _ => acc
  | p :: ps, k => pyDictGetAux (if p.1 = k then some p.2 else acc) ps k

/-- Python dict lookup (`d.get(k)`) on a dict literal. -/
def pyDictGet (d : List (String × String)) (k : String) : Option String :=
  pyDictGetAux none d k

/-- Char-list keyed variant of `pyDictGetAux` (used for the small
romanisation tables, whose keys we keep as explicit character lists). -/
def pyDictGetCAux (acc : Option String) : List (List Char × String) → List Char → Option String
  | [], _ => acc
  | p :: ps, k => pyDictGetCAux (if p.1 = k then some p.2 else acc) ps k

/-- Python dict lookup on a char-list keyed dict literal. -/
def pyDictGetC (d : List (List Char × String)) (k : List Char) : Option String :=
  pyDictGetCAux none d k

/-- Python `x or y` on an optional string: `None` and the empty string are
falsy and select the fallback. -/
def pyOrElse (o : Option String) (d : String) : String :=
  match o with
  | some v => if v = "" then d else v
  | none => d

/-- Python `str.lower`, modelled on the characters this program actually
manipulates: ASCII letters and the macron/circumflex vowels appearing in the
`MACRON` table.  Any other character is returned unchanged. -/
def pyLower (c : Char) : Char :=
  if c = 'Ā' then 'ā'
  else if c = 'Ī' then 'ī'
  else if c = 'Ū' then 'ū'
  else if c = 'Ē' then 'ē'
  else if c = 'Ō' then 'ō'
  else if c = 'Â' then 'â'
  else if c = 'Î' then 'î'
  else if c = 'Û' then 'û'
  else if c = 'Ê' then 'ê'
  else if c = 'Ô' then 'ô'
  else c.toLower

/-- `str.lower` lifted to strings. -/
def pyLowerS (s : String) : String := String.mk (s.data.map pyLower)

/-- The `MACRON` translation table
`{"ā":"aa","ī":"ii","ū":"uu","ē":"ee","ō":"ou","â":"aa","î":"ii","û":"uu","ê":"ee","ô":"ou"}`
as a per-character replacement. -/
def macronChar (c : Char) : List Char :=
  if c = 'ā' then ['a', 'a']
  else if c = 'ī' then ['i', 'i']
  else if c = 'ū' then ['u', 'u']
  else if c = 'ē' then ['e', 'e']
  else if c = 'ō' then ['o', 'u']
  else if c = 'â' then ['a', 'a']
  else if c = 'î' then ['i', 'i']
  else if c = 'û' then ['u', 'u']
  else if c = 'ê' then ['e', 'e']
  else if c = 'ô' then ['o', 'u']
  else [c]

/-- Python `s.translate(MACRON)`: apply `macronChar` to every character. -/
def translateMacron : List Char → List Char
  | [] => []
  | c :: rest => macronChar c ++ translateMacron rest

/-- Membership in the character class `[a-z]`. -/
def isAsciiLowerAlpha (c : Char) : Bool := 'a' ≤ c && c ≤ 'z'

/-- Python `re.sub(r"[^a-z]", "", s)`: keep only lowercase ASCII letters. -/
def cleanLetters (l : List Char) : List Char := l.filter isAsciiLowerAlpha

/-- The character class `[bcdfghjklmnpqrstvwxyz]` used as lookahead both by
the `oh` rewrite in `roman_to_katakana` and the `ryo` rewrite in
`_kana_parts`. -/
def OH_CONSONANTS : List Char :=
  ['b', 'c', 'd', 'f', 'g', 'h', 'j', 'k', 'l', 'm', 'n', 'p', 'q', 'r',
   's', 't', 'v', 'w', 'x', 'y', 'z']

/-- Python `re.sub(r"oh(?=[bcdfghjklmnpqrstvwxyz]|$)", "ou", s)`: a
left-to-right scan; a match consumes `oh` (the lookahead character is not
consumed) and scanning resumes after the consumed text. -/
def ohSub : List Char → List Char
  | [] => []
  | [c] => [c]
  | c :: c2 :: rest2 =>
    if c == 'o' && c2 == 'h' &&
       (match rest2 with
        | c3 :: _ => OH_CONSONANTS.contains c3
        | [] => true) then
      'o' :: 'u' :: ohSub rest2
    else c :: ohSub (c2 :: rest2)

/-- `VOWELS = set("aeiou")`. -/
def VOWELS : List Char := ['a', 'e', 'i', 'o', 'u']

/-- The geminate test of the segmentation loop:
`i + 1 < len(s) and s[i] == s[i + 1] and s[i] not in VOWELS and s[i] != "n"`. -/
def isGeminate (c : Char) (rest : List Char) : Bool :=
  match rest with
  | c2 :: _ => c == c2 && !(VOWELS.contains c) && !(c == 'n')
  | [] => false

/-- The 3-letter palatalized-cluster table `TRI_MAP` (keys as character lists). -/
def TRI_MAP : List (List Char × String) := [
  (['k', 'y', 'a'], "キャ"),
  (['k', 'y', 'u'], "キュ"),
  (['k', 'y', 'o'], "キョ"),
  (['g', 'y', 'a'], "ギャ"),
  (['g', 'y', 'u'], "ギュ"),
  (['g', 'y', 'o'], "ギョ"),
  (['s', 'h', 'a'], "シャ"),
  (['s', 'h', 'u'], "シュ"),
  (['s', 'h', 'o'], "ショ"),
  (['c', 'h', 'a'], "チャ"),
  (['c', 'h', 'u'], "チュ"),
  (['c', 'h', 'o'], "チョ"),
  (['j', 'a'], "ジャ"),
  (['j', 'u'], "ジュ"),
  (['j', 'o'], "ジョ"),
  (['n', 'y', 'a'], "ニャ"),
  (['n', 'y', 'u'], "ニュ"),
  (['n', 'y', 'o'], "ニョ"),
  (['h', 'y', 'a'], "ヒャ"),
  (['h', 'y', 'u'], "ヒュ"),
  (['h', 'y', 'o'], "ヒョ"),
  (['m', 'y', 'a'], "ミャ"),
  (['m', 'y', 'u'], "ミュ"),
  (['m', 'y', 'o'], "ミョ"),
  (['r', 'y', 'a'], "リャ"),
  (['r', 'y', 'u'], "リュ"),
  (['r', 'y', 'o'], "リョ"),
  (['b', 'y', 'a'], "ビャ"),
  (['b', 'y', 'u'], "ビュ"),
  (['b', 'y', 'o'], "ビョ"),
  (['p', 'y', 'a'], "ピャ"),
  (['p', 'y', 'u'], "ピュ"),
  (['p', 'y', 'o'], "ピョ"),
  (['t', 'y', 'a'], "チャ"),
  (['t', 'y', 'u'], "チュ"),
  (['t', 'y', 'o'], "チョ"),
  (['d', 'y', 'a'], "ジャ"),
  (['d', 'y', 'u'], "ジュ"),
  (['d', 'y', 'o'], "ジョ")
]

/-- The irregular-spelling table `DI_MAP` (keys as character lists). -/
def DI_MAP : List (List Char × String) := [
  (['s', 'h', 'i'], "シ"),
  (['c', 'h', 'i'], "チ"),
  (['t', 's', 'u'], "ツ"),
  (['f', 'u'], "フ"),
  (['j', 'i'], "ジ"),
  (['t', 'i'], "ティ"),
  (['d', 'i'], "ディ"),
  (['t', 'u'], "トゥ"),
  (['d', 'u'], "ドゥ"),
  (['j', 'e'], "ジェ"),
  (['c', 'h', 'e'], "チェ"),
  (['s', 'h', 'e'], "シェ"),
  (['c', 'i'], "シ"),
  (['c', 'e'], "セ"),
  (['w', 'i'], "ウィ"),
  (['w', 'e'], "ウェ"),
  (['w', 'o'], "ヲ"),
  (['j', 'a'], "ジャ"),
  (['j', 'u'], "ジュ"),
  (['j', 'o'], "ジョ")
]

/-- The generic consonant+vowel table `BASE` (keys as character lists). -/
def BASE : List (List Char × String) := [
  (['a'], "ア"),
  (['i'], "イ"),
  (['u'], "ウ"),
  (['e'], "エ"),
  (['o'], "オ"),
  (['k', 'a'], "カ"),
  (['k', 'i'], "キ"),
  (['k', 'u'], "ク"),
  (['k', 'e'], "ケ"),
  (['k', 'o'], "コ"),
  (['g', 'a'], "ガ"),
  (['g', 'i'], "ギ"),
  (['g', 'u'], "グ"),
  (['g', 'e'], "ゲ"),
  (['g', 'o'], "ゴ"),
  (['s', 'a'], "サ"),
  (['s', 'i'], "シ"),
  (['s', 'u'], "ス"),
  (['s', 'e'], "セ"),
  (['s', 'o'], "ソ"),
  (['z', 'a'], "ザ"),
  (['z', 'i'], "ジ"),
  (['z', 'u'], "ズ"),
  (['z', 'e'], "ゼ"),
  (['z', 'o'], "ゾ"),
  (['t', 'a'], "タ"),
  (['t', 'i'], "ティ"),
  (['t', 'u'], "トゥ"),
  (['t', 'e'], "テ"),
  (['t', 'o'], "ト"),
  (['d', 'a'], "ダ"),
  (['d', 'i'], "ディ"),
  (['d', 'u'], "ドゥ"),
  (['d', 'e'], "デ"),
  (['d', 'o'], "ド"),
  (['n', 'a'], "ナ"),
  (['n', 'i'], "ニ"),
  (['n', 'u'], "ヌ"),
  (['n', 'e'], "ネ"),
  (['n', 'o'], "ノ"),
  (['h', 'a'], "ハ"),
  (['h', 'i'], "ヒ"),
  (['h', 'u'], "フ"),
  (['h', 'e'], "ヘ"),
  (['h', 'o'], "ホ"),
  (['b', 'a'], "バ"),
  (['b', 'i'], "ビ"),
  (['b', 'u'], "ブ"),
  (['b', 'e'], "ベ"),
  (['b', 'o'], "ボ"),
  (['p', 'a'], "パ"),
  (['p', 'i'], "ピ"),
  (['p', 'u'], "プ"),
  (['p', 'e'], "ペ"),
  (['p', 'o'], "ポ"),
  (['m', 'a'], "マ"),
  (['m', 'i'], "ミ"),
  (['m', 'u'], "ム"),
  (['m', 'e'], "メ"),
  (['m', 'o'], "モ"),
  (['r', 'a'], "ラ"),
  (['r', 'i'], "リ"),
  (['r', 'u'], "ル"),
  (['r', 'e'], "レ"),
  (['r', 'o'], "ロ"),
  (['y', 'a'], "ヤ"),
  (['y', 'u'], "ユ"),
  (['y', 'o'], "ヨ"),
  (['w', 'a'], "ワ"),
  (['w', 'e'], "ウェ"),
  (['w', 'o'], "ヲ"),
  (['v', 'a'], "ヴァ"),
  (['v', 'i'], "ヴィ"),
  (['v', 'u'], "ヴ"),
  (['v', 'e'], "ヴェ"),
  (['v', 'o'], "ヴォ"),
  (['f', 'a'], "ファ"),
  (['f', 'i'], "フィ"),
  (['f', 'e'], "フェ"),
  (['f', 'o'], "フォ"),
  (['l', 'a'], "ラ"),
  (['l', 'i'], "リ"),
  (['l', 'u'], "ル"),
  (['l', 'e'], "レ"),
  (['l', 'o'], "ロ"),
  (['c', 'a'], "カ"),
  (['c', 'i'], "シ"),
  (['c', 'u'], "ク"),
  (['c', 'e'], "セ"),
  (['c', 'o'], "コ"),
  (['q', 'a'], "カ"),
  (['q', 'i'], "キ"),
  (['q', 'u'], "ク"),
  (['q', 'e'], "ケ"),
  (['q', 'o'], "コ")
]

/-- `KATAKANA_LASTNAME_OVERRIDE`, in source order (duplicate keys kept). -/
def KATAKANA_LASTNAME_OVERRIDE : List (String × String) := [
  ("abe", "アベ"),
  ("abiko", "アビコ"),
  ("adachi", "アダチ"),
  ("agematsu", "アゲマツ"),
  ("aihara", "アイハラ"),
  ("aikawa", "アイカワ"),
  ("aizawa", "アイザワ"),
  ("ajimi", "アジミ"),
  ("akabame", "アカバメ"),
  ("akagi", "アカギ"),
  ("akahori", "アカホリ"),
  ("akama", "アカマ"),
  ("akamine", "アカミネ"),
  ("akao", "アカオ"),
  ("akari", "アカリ"),
  ("akasaka", "アカサカ"),
  ("akase", "アカセ"),
  ("akashi", "アカシ"),
  ("akazawa", "アカザワ"),
  ("akima", "アキマ"),
  ("akimaru", "アキマル"),
  ("akioka", "アキオカ"),
  ("akita", "アキタ"),
  ("akiyama", "アキヤマ"),
  ("ako", "アコ"),
  ("akutsu", "アクツ"),
  ("amagaya", "アマガヤ"),
  ("amaki", "アマキ"),
  ("amanai", "アマナイ"),
  ("amano", "アマノ"),
  ("amano", "アマノ"),
  ("amemiya", "アメミヤ"),
  ("amisaki", "アミサキ"),
  ("anai", "アナイ"),
  ("ando", "アンドウ"),
  ("anzai", "アンザイ"),
  ("anzaki", "アンザキ"),
  ("aoki", "アオキ"),
  ("aono", "アオノ"),
  ("aoyama", "アオヤマ"),
  ("arai", "アライ"),
  ("arakaki", "アラカキ"),
  ("araki", "アラキ"),
  ("aramaki", "アラマキ"),
  ("arao", "アラオ"),
  ("arashi", "アラシ"),
  ("aratame", "アラタメ"),
  ("arikawa", "アリカワ"),
  ("arima", "アリマ"),
  ("arimoto", "アリモト"),
  ("asada", "アサダ"),
  ("asai", "アサイ"),
  ("asakawa", "アサカワ"),
  ("asakura", "アサクラ"),
  ("asami", "アサミ"),
  ("asano", "アサノ"),
  ("asaoka", "アサオカ"),
  ("asari", "アサリ"),
  ("asaumi", "アサウミ"),
  ("ashida", "アシダ"),
  ("ashikaga", "アシカガ"),
  ("ashikawa", "アシカワ"),
  ("asukai", "アスカイ"),
  ("atsuchi", "アツチ"),
  ("atsumi", "アツミ"),
  ("awaya", "アワヤ"),
  ("ayabe", "アヤベ"),
  ("baba", "ババ"),
  ("bando", "バンドウ"),
  ("chatani", "チャタニ"),
  ("chiba", "チバ"),
  ("chida", "チダ"),
  ("chikata", "チカタ"),
  ("chinen", "チネン"),
  ("chishiki", "チシキ"),
  ("chisiki", "チシキ"),
  ("dai", "ダイ"),
  ("daida", "ダイダ"),
  ("daimon", "ダイモン"),
  ("dan", "ダン"),
  ("deguchi", "デグチ"),
  ("dochi", "ドチ"),
  ("dohi", "ドイ"),
  ("doi", "ドイ"),
  ("doijiri", "ドイジリ"),
  ("domei", "ドウメイ"),
  ("ebara", "エバラ"),
  ("ebato", "エバト"),
  ("ebihara", "エビハラ"),
  ("ebina", "エビナ"),
  ("ebisawa", "エビサワ"),
  ("ebuchi", "エブチ"),
  ("egami", "エガミ"),
  ("ehara", "エハラ"),
  ("eizawa", "エイザワ"),
  ("ejiri", "エジリ"),
  ("emori", "エモリ"),
  ("emoto", "エモト"),
  ("endo", "エンドウ"),
  ("enomoto", "エノモト"),
  ("enta", "エンタ"),
  ("esaki", "エサキ"),
  ("eto", "エトウ"),
  ("etoh", "エトウ"),
  ("ezure", "エズレ"),
  ("fujibayashi", "フジバヤシ"),
  ("fujihara", "フジハラ"),
  ("fujii", "フジイ"),
  ("fujikawa", "フジカワ"),
  ("fujima", "フジマ"),
  ("fujimi", "フジミ"),
  ("fujimiya", "フジミヤ"),
  ("fujimoto", "フジモト"),
  ("fujimura", "フジムラ"),
  ("fujinami", "フジナミ"),
  ("fujino", "フジノ"),
  ("fujinuma", "フジヌマ"),
  ("fujioka", "フジオカ"),
  ("fujisaka", "フジサカ"),
  ("fujisaki", "フジサキ"),
  ("fujisawa", "フジサワ"),
  ("fujishima", "フジシマ"),
  ("fujisue", "フジスエ"),
  ("fujita", "フジタ"),
  ("fujito", "フジト"),
  ("fujiu", "フジウ"),
  ("fujiwara", "フジワラ"),
  ("fujiyama", "フジヤマ"),
  ("fujiyoshi", "フジヨシ"),
  ("fukae", "フカエ"),
  ("fukagai", "フカガイ"),
  ("fukamachi", "フカマチ"),
  ("fukami", "フカミ"),
  ("fukamizu", "フカミズ"),
  ("fukase", "フカセ"),
  ("fukata", "フカタ"),
  ("fukazawa", "フカザワ"),
  ("fuki", "フキ"),
  ("fuku", "フク"),
  ("fukuda", "フクダ"),
  ("fukuhara", "フクハラ"),
  ("fukui", "フクイ"),
  ("fukuishi", "フクイシ"),
  ("fukuizumi", "フクイズミ"),
  ("fukuma", "フクマ"),
  ("fukumoto", "フクモト"),
  ("fukunaga", "フクナガ"),
  ("fukunami", "フクナミ"),
  ("fukuoka", "フクオカ"),
  ("fukushima", "フクシマ"),
  ("fukutomi", "フクトミ"),
  ("fukuyado", "フクヤド"),
  ("fukuyama", "フクヤマ"),
  ("fukuzawa", "フクザワ"),
  ("funabiki", "フナビキ"),
  ("funaki", "フナキ"),
  ("funakubo", "フナクボ"),
  ("funamizu", "フナミズ"),
  ("funatsu", "フナツ"),
  ("funayama", "フナヤマ"),
  ("furugori", "フルゴオリ"),
  ("furukawa", "フルカワ"),
  ("furusawa", "フルサワ"),
  ("furushima", "フルシマ"),
  ("furusho", "フルショウ"),
  ("furuta", "フルタ"),
  ("furuya", "フルヤ"),
  ("furuyashiki", "フルヤシキ"),
  ("fusazaki", "フサザキ"),
  ("fuseya", "フセヤ"),
  ("fushimi", "フシミ"),
  ("gatate", "ガタテ"),
  ("gibo", "ギボ"),
  ("godo", "ゴウド"),
  ("gohbara", "ゴウハラ"),
  ("gohbara", "ゴオバラ"),
  ("gomi", "ゴミ"),
  ("goriki", "ゴウリキ"),
  ("gotanda", "ゴタンダ"),
  ("goto", "ゴトウ"),
  ("gunji", "グンジ"),
  ("haba", "ハバ"),
  ("habara", "ハバラ"),
  ("hachinohe", "ハチノヘ"),
  ("hada", "ハダ"),
  ("hadase", "ハダセ"),
  ("haga", "ハガ"),
  ("hagikura", "ハギクラ"),
  ("hagiwara", "ハギワラ"),
  ("hagiya", "ハギヤ"),
  ("hai", "ハイ"),
  ("haishi", "ハイシ"),
  ("hakoda", "ハコダ"),
  ("hamada", "ハマダ"),
  ("hamadate", "ハマダテ"),
  ("hamaguchi", "ハマグチ"),
  ("hamana", "ハマナ"),
  ("hamanaka", "ハマナカ"),
  ("hamano", "ハマノ"),
  ("hamashige", "ハマシゲ"),
  ("hamatani", "ハマタニ"),
  ("hamaya", "ハマヤ"),
  ("hamazaki", "ハマザキ"),
  ("hanada", "ハナダ"),
  ("hanajima", "ハナジマ"),
  ("hanaoka", "ハナオカ"),
  ("hanatani", "ハナタニ"),
  ("hanyu", "ハニュウ"),
  ("hao", "ハオ"),
  ("hara", "ハラ"),
  ("harada", "ハラダ"),
  ("haruki", "ハルキ"),
  ("haruta", "ハルタ"),
  ("hasebe", "ハセベ"),
  ("hasegawa", "ハセガワ"),
  ("hashiba", "ハシバ"),
  ("hashikata", "ハシカタ"),
  ("hashimoto", "ハシモト"),
  ("hata", "ハタ"),
  ("hatori", "ハットリ"),
  ("hattori", "ハットリ"),
  ("hayakawa", "ハヤカワ"),
  ("hayama", "ハヤマ"),
  ("hayasaka", "ハヤサカ"),
  ("hayase", "ハヤセ"),
  ("hayashi", "ハヤシ"),
  ("hayashida", "ハヤシダ"),
  ("hayatsu", "ハヤツ"),
  ("hibi", "ヒビ"),
  ("hibino", "ヒビノ"),
  ("hida", "ヒダ"),
  ("hidaka", "ヒダカ"),
  ("hieda", "ヒエダ"),
  ("hifumi", "ヒフミ"),
  ("higa", "ヒガ"),
  ("higaki", "ヒガキ"),
  ("higami", "ヒガミ"),
  ("higashida", "ヒガシダ"),
  ("higashihara", "ヒガシハラ"),
  ("higashikuni", "ヒガシクニ"),
  ("higashino", "ヒガシノ"),
  ("higashioka", "ヒガシオカ"),
  ("higashiya", "ヒガシヤ"),
  ("higo", "ヒゴ"),
  ("higuchi", "ヒグチ"),
  ("higuma", "ヒグマ"),
  ("hiki", "ヒキ"),
  ("hikichi", "ヒキチ"),
  ("hikida", "ヒキダ"),
  ("hikita", "ヒキタ"),
  ("hikoso", "ヒコソ"),
  ("himi", "ヒミ"),
  ("himuro", "ヒムロ"),
  ("hino", "ヒノ"),
  ("hiraga", "ヒラガ"),
  ("hirai", "ヒライ"),
  ("hiraide", "ヒライデ"),
  ("hiraishi", "ヒライシ"),
  ("hiraiwa", "ヒライワ"),
  ("hirakawa", "ヒラカワ"),
  ("hiramatsu", "ヒラマツ"),
  ("hiramori", "ヒラモリ"),
  ("hirano", "ヒラノ"),
  ("hirao", "ヒラオ"),
  ("hiraoka", "ヒラオカ"),
  ("hirase", "ヒラセ"),
  ("hirashima", "ヒラシマ"),
  ("hirata", "ヒラタ"),
  ("hiraya", "ヒラヤ"),
  ("hirayama", "ヒラヤマ"),
  ("hirayu", "ヒラユ"),
  ("hiro", "ヒロ"),
  ("hirofuji", "ヒロフジ"),
  ("hirofuzi", "ヒロフジ"),
  ("hirohata", "ヒロハタ"),
  ("hiromasa", "ヒロマサ"),
  ("hironaga", "ヒロナガ"),
  ("hirooka", "ヒロオカ"),
  ("hirose", "ヒロセ"),
  ("hirota", "ヒロタ"),
  ("hiruma", "ヒルマ"),
  ("hisadome", "ヒサドメ"),
  ("hisamune", "ヒサムネ"),
  ("hisanaga", "ヒサナガ"),
  ("hisauchi", "ヒサウチ"),
  ("hishikari", "ヒシカリ"),
  ("hitomi", "ヒトミ"),
  ("hoji", "ホジ"),
  ("hojo", "ホウジョウ"),
  ("hokama", "ホカマ"),
  ("hokimoto", "ホキモト"),
  ("homma", "ホンマ"),
  ("honda", "ホンダ"),
  ("honde", "ホンデ"),
  ("hondera", "ホンデラ"),
  ("hongo", "ホンゴウ"),
  ("honye", "ホンエ"),
  ("hori", "ホリ"),
  ("horibe", "ホリベ"),
  ("horie", "ホリエ"),
  ("horii", "ホリイ"),
  ("horikoshi", "ホリコシ"),
  ("horimoto", "ホリモト"),
  ("horio", "ホリオ"),
  ("horita", "ホリタ"),
  ("horiuchi", "ホリウチ"),
  ("hoshi", "ホシ"),
  ("hoshiga", "ホシガ"),
  ("hoshika", "ホシカ"),
  ("hoshina", "ホシナ"),
  ("hoshino", "ホシノ"),
  ("hoshiyama", "ホシヤマ"),
  ("hosoda", "ホソダ"),
  ("hosoe", "ホソエ"),
  ("hosogi", "ホソギ"),
  ("hosoi", "ホソイ"),
  ("hosokawa", "ホソカワ"),
  ("hosoya", "ホソヤ"),
  ("hosozawa", "ホソザワ"),
  ("hotsuki", "ホツキ"),
  ("hotta", "ホッタ"),
  ("hoyano", "ホヤノ"),
  ("hozawa", "ホザワ"),
  ("hyodo", "ヒョオドウ"),
  ("ibaraki", "イバラキ"),
  ("ichibori", "イチボリ"),
  ("ichihara", "イチハラ"),
  ("ichikawa", "イチカワ"),
  ("ichinokawa", "イチノカワ"),
  ("ichioka", "イチオカ"),
  ("ida", "イダ"),
  ("ide", "イデ"),
  ("ideguchi", "イデグチ"),
  ("ieda", "イエダ"),
  ("iehara", "イエハラ"),
  ("igarashi", "イガラシ"),
  ("igawa", "イガワ"),
  ("igeta", "イゲタ"),
  ("iha", "イハ"),
  ("ihara", "イハラ"),
  ("iida", "イイダ"),
  ("iihara", "イイハラ"),
  ("iijima", "イイジマ"),
  ("iimori", "イイモリ"),
  ("iino", "イイノ"),
  ("iioka", "イイオカ"),
  ("iiya", "イイヤ"),
  ("ijuin", "イジュウイン"),
  ("ikai", "イカイ"),
  ("ikari", "イカリ"),
  ("ike", "イケ"),
  ("ikebe", "イケベ"),
  ("ikeda", "イケダ"),
  ("ikegami", "イケガミ"),
  ("ikemiyagi", "イケミヤギ"),
  ("ikemura", "イケムラ"),
  ("ikenaga", "イケナガ"),
  ("ikeno", "イケノ"),
  ("ikeoka", "イケオカ"),
  ("ikeuchi", "イケウチ"),
  ("ikuchi", "イクチ"),
  ("ikuta", "イクタ"),
  ("imada", "イマダ"),
  ("imagawa", "イマガワ"),
  ("imai", "イマイ"),
  ("imaizumi", "イマイズミ"),
  ("imamura", "イマムラ"),
  ("imanaka", "イマナカ"),
  ("imaoka", "イマオカ"),
  ("imori", "イモリ"),
  ("inaba", "イナバ"),
  ("inada", "イナダ"),
  ("inagaki", "イナガキ"),
  ("inden", "インデン"),
  ("ino", "イノウ"),
  ("inohara", "イノハラ"),
  ("inoko", "イノコ"),
  ("inomata", "イノマタ"),
  ("inoue", "イノウエ"),
  ("inuzuka", "イヌズカ"),
  ("ioji", "イオジ"),
  ("irie", "イリエ"),
  ("iritani", "イリタニ"),
  ("isawa", "イサワ"),
  ("iseki", "イセキ"),
  ("ishi", "イシイ"),
  ("ishibashi", "イシバシ"),
  ("ishibuchi", "イシブチ"),
  ("ishida", "イシダ"),
  ("ishidoya", "イシドヤ"),
  ("ishigaki", "イシガキ"),
  ("ishigami", "イシガミ"),
  ("ishiguro", "イシグロ"),
  ("ishihara", "イシハラ"),
  ("ishii", "イシイ"),
  ("ishikawa", "イシカワ"),
  ("ishimura", "イシムラ"),
  ("ishino", "イシノ"),
  ("ishio", "イシオ"),
  ("ishisone", "イシソネ"),
  ("ishiwata", "イシワタ"),
  ("ishizawa", "イシザワ"),
  ("ishizu", "イシズ"),
  ("iso", "イソ"),
  ("isobe", "イソベ"),
  ("isoda", "イソダ"),
  ("isodono", "イソドノ"),
  ("isogai", "イソガイ"),
  ("isomura", "イソムラ"),
  ("isozaki", "イソザキ"),
  ("isshiki", "イッシキ"),
  ("itabashi", "イタバシ"),
  ("itagaki", "イタガキ"),
  ("itaya", "イタヤ"),
  ("ito", "イトウ"),
  ("itoh", "イトウ"),
  ("itokawa", "イトカワ"),
  ("itoshima", "イトシマ"),
  ("iwabe", "イワベ"),
  ("iwabuchi", "イワブチ"),
  ("iwagami", "イワガミ"),
  ("iwahashi", "イワハシ"),
  ("iwahori", "イワホリ"),
  ("iwai", "イワイ"),
  ("iwakura", "イワクラ"),
  ("iwama", "イワマ"),
  ("iwamoto", "イワモト"),
  ("iwanaga", "イワナガ"),
  ("iwanami", "イワナミ"),
  ("iwane", "イワネ"),
  ("iwasa", "イワサ"),
  ("iwasaki", "イワサキ"),
  ("iwata", "イワタ"),
  ("iwatsubo", "イワツボ"),
  ("iwayama", "イワヤマ"),
  ("izawa", "イザワ"),
  ("izumi", "イズミ"),
  ("izumikawa", "イズミカワ"),
  ("izumiya", "イズミヤ"),
  ("izumo", "イズモ"),
  ("jinno", "ジンノ"),
  ("jinnouchi", "ジンノウチ"),
  ("jojima", "ジョウジマ"),
  ("joki", "ジョウキ"),
  ("jujo", "ジュウジョウ"),
  ("kabutoya", "カブトヤ"),
  ("kachi", "カチ"),
  ("kadokami", "カドカミ"),
  ("kadooka", "カドオカ"),
  ("kadota", "カドタ"),
  ("kadotani", "カドタニ"),
  ("kaga", "カガ"),
  ("kagawa", "カガワ"),
  ("kageyama", "カゲヤマ"),
  ("kai", "カイ"),
  ("kaichi", "カイチ"),
  ("kaikita", "カイキタ"),
  ("kainuma", "カイヌマ"),
  ("kaitani", "カイタニ"),
  ("kaji", "カジ"),
  ("kajihara", "カジハラ"),
  ("kajikawa", "カジカワ"),
  ("kajimoto", "カジモト"),
  ("kajinami", "カジナミ"),
  ("kajiwara", "カジワラ"),
  ("kajiya", "カジヤ"),
  ("kakazu", "カカズ"),
  ("kakei", "カケイ"),
  ("kakimoto", "カキモト"),
  ("kakizaki", "カキザキ"),
  ("kaku", "カク"),
  ("kakumori", "カクモリ"),
  ("kakuta", "カクタ"),
  ("kamada", "カマダ"),
  ("kamagata", "カマガタ"),
  ("kamba", "カンバ"),
  ("kameda", "カメダ"),
  ("kameshima", "カメシマ"),
  ("kameyama", "カメヤマ"),
  ("kamigaki", "カミガキ"),
  ("kamikawa", "カミカワ"),
  ("kamisago", "カミサゴ"),
  ("kamishima", "カミシマ"),
  ("kamishita", "カミシタ"),
  ("kamiunten", "カミウンテン"),
  ("kamiya", "カミヤ"),
  ("kamon", "カモン"),
  ("kanaji", "カナジ"),
  ("kanamori", "カナモリ"),
  ("kanaoka", "カナオカ"),
  ("kanaya", "カナヤ"),
  ("kanazawa", "カナザワ"),
  ("kanda", "カンダ"),
  ("kandori", "カンドリ"),
  ("kaneda", "カネダ"),
  ("kanegawa", "カネガワ"),
  ("kanehama", "カネハマ"),
  ("kaneko", "カネコ"),
  ("kanemitsu", "カネミツ"),
  ("kanemura", "カネムラ"),
  ("kanenawa", "カネナワ"),
  ("kanie", "カニエ"),
  ("kanno", "カンノ"),
  ("kanzaki", "カンザキ"),
  ("karasawa", "カラサワ"),
  ("kario", "カリオ"),
  ("kasahara", "カサハラ"),
  ("kasai", "カサイ"),
  ("kasama", "カサマ"),
  ("kashima", "カシマ"),
  ("kashimura", "カシムラ"),
  ("kashiwagi", "カシワギ"),
  ("kashiyama", "カシヤマ"),
  ("kasuga", "カスガ"),
  ("katagata", "カタガタ"),
  ("katagiri", "カタギリ"),
  ("katahira", "カタヒラ"),
  ("katamine", "カタミネ"),
  ("kataoka", "カタオカ"),
  ("katawaki", "カタワキ"),
  ("katayama", "カタヤマ"),
  ("kato", "カトウ"),
  ("katoh", "カトウ"),
  ("katsuki", "カツキ"),
  ("katsumata", "カツマタ"),
  ("katsura", "カツラ"),
  ("katsushika", "カツシカ"),
  ("kawachi", "カワチ"),
  ("kawada", "カワダ"),
  ("kawagoe", "カワゴエ"),
  ("kawaguchi", "カワグチ"),
  ("kawahara", "カワハラ"),
  ("kawahatsu", "カワハツ"),
  ("kawahira", "カワヒラ"),
  ("kawai", "カワイ"),
  ("kawakami", "カワカミ"),
  ("kawakubo", "カワクボ"),
  ("kawamori", "カワモリ"),
  ("kawamoto", "カワモト"),
  ("kawamura", "カワムラ"),
  ("kawanami", "カワナミ"),
  ("kawanishi", "カワニシ"),
  ("kawano", "カワノ"),
  ("kawasaki", "カワサキ"),
  ("kawase", "カワセ"),
  ("kawashima", "カワシマ"),
  ("kawasoe", "カワソエ"),
  ("kawata", "カワタ"),
  ("kawauchi", "カワウチ"),
  ("kawaura", "カワウラ"),
  ("kayanuma", "カヤヌマ"),
  ("kazama", "カザマ"),
  ("kazui", "カズイ"),
  ("kazuya", "カズヤ"),
  ("keira", "ケイラ"),
  ("kibe", "キベ"),
  ("kida", "キダ"),
  ("kido", "キド"),
  ("kijima", "キジマ"),
  ("kiko", "キコ"),
  ("kikuchi", "キクチ"),
  ("kikuta", "キクタ"),
  ("kimishima", "キミシマ"),
  ("kimura", "キムラ"),
  ("kinjo", "キンジョウ"),
  ("kinoshita", "キノシタ"),
  ("kinugawa", "キヌガワ"),
  ("kira", "キラ"),
  ("kirigaya", "キリガヤ"),
  ("kiriyama", "キリヤマ"),
  ("kise", "キセ"),
  ("kishi", "キシ"),
  ("kishima", "キシマ"),
  ("kishimoto", "キシモト"),
  ("kishino", "キシノ"),
  ("kishita", "キシタ"),
  ("kita", "キタ"),
  ("kitabata", "キタバタ"),
  ("kitada", "キタダ"),
  ("kitagawa", "キタガワ"),
  ("kitahara", "キタハラ"),
  ("kitai", "キタイ"),
  ("kitajima", "キタジマ"),
  ("kitakaze", "キタカゼ"),
  ("kitamura", "キタムラ"),
  ("kitani", "キタニ"),
  ("kitano", "キタノ"),
  ("kitao", "キタオ"),
  ("kitaoka", "キタオカ"),
  ("kitayama", "キタヤマ"),
  ("kitazono", "キタゾノ"),
  ("kitsuka", "キツカ"),
  ("kiuchi", "キウチ"),
  ("kiyohara", "キヨハラ"),
  ("kiyono", "キヨノ"),
  ("kiyoshige", "キヨシゲ"),
  ("kiyosue", "キヨスエ"),
  ("koba", "コバ"),
  ("kobara", "コバラ"),
  ("kobata", "コバタ"),
  ("kobayashi", "コバヤシ"),
  ("kodaira", "コダイラ"),
  ("kodama", "コダマ"),
  ("kodera", "コデラ"),
  ("koeda", "コエダ"),
  ("koezuka", "コエズカ"),
  ("koga", "コガ"),
  ("kogame", "コガメ"),
  ("kogo", "コウゴ"),
  ("kogure", "コグレ"),
  ("kohjitani", "コウジタニ"),
  ("kohno", "コウノ"),
  ("kohro", "コウロ"),
  ("kohsaka", "コウサカ"),
  ("kohyama", "コウヤマ"),
  ("koide", "コイデ"),
  ("koido", "コイド"),
  ("koike", "コイケ"),
  ("koitabashi", "コイタバシ"),
  ("koiwa", "コイワ"),
  ("koiwaya", "コイワヤ"),
  ("koizumi", "コイズミ"),
  ("kojima", "コジマ"),
  ("kokubu", "コクブ"),
  ("komaki", "コマキ"),
  ("komasa", "コマサ"),
  ("komatsu", "コマツ"),
  ("komiya", "コミヤ"),
  ("komiyama", "コミヤマ"),
  ("komooka", "コモオカ"),
  ("komori", "コモリ"),
  ("komukai", "コムカイ"),
  ("komuro", "コムロ"),
  ("kondo", "コンドウ"),
  ("kongoji", "コンゴウジ"),
  ("konishi", "コニシ"),
  ("konno", "コンノ"),
  ("konta", "コンタ"),
  ("korematsu", "コレマツ"),
  ("kosedo", "コセドウ"),
  ("kosuga", "コスガ"),
  ("kosuge", "コスゲ"),
  ("kosugi", "コスギ"),
  ("kotani", "コタニ"),
  ("kotoku", "コウトク"),
  ("koura", "コウラ"),
  ("kowatari", "コワタリ"),
  ("koyama", "コヤマ"),
  ("koyanagi", "コヤナギ"),
  ("kozuka", "コズカ"),
  ("kozuki", "コウズキ"),
  ("kozuma", "コウズマ"),
  ("kozuma", "コオズマ"),
  ("kubo", "クボ"),
  ("kubokawa", "クボカワ"),
  ("kubota", "クボタ"),
  ("kubozono", "クボゾノ"),
  ("kudo", "クドウ"),
  ("kuga", "クガ"),
  ("kugiyama", "クギヤマ"),
  ("kuji", "クジ"),
  ("kujiraoka", "クジラオカ"),
  ("kumada", "クマダ"),
  ("kumagai", "クマガイ"),
  ("kumamaru", "クママル"),
  ("kume", "クメ"),
  ("kunieda", "クニエダ"),
  ("kunii", "クニイ"),
  ("kunimasa", "クニマサ"),
  ("kunimoto", "クニモト"),
  ("kunimura", "クニムラ"),
  ("kunioka", "クニオカ"),
  ("kunisawa", "クニサワ"),
  ("kuno", "クノ"),
  ("kurahashi", "クラハシ"),
  ("kuramitsu", "クラミツ"),
  ("kuraoka", "クラオカ"),
  ("kurata", "クラタ"),
  ("kure", "クレ"),
  ("kuribara", "クリバラ"),
  ("kurihara", "クリハラ"),
  ("kurimoto", "クリモト"),
  ("kurita", "クリタ"),
  ("kuriyama", "クリヤマ"),
  ("kurobe", "クロベ"),
  ("kuroda", "クロダ"),
  ("kurogi", "クロギ"),
  ("kuroi", "クロイ"),
  ("kuroita", "クロイタ"),
  ("kurosaki", "クロサキ"),
  ("kurosawa", "クロサワ"),
  ("kurozumi", "クロズミ"),
  ("kusachi", "クサチ"),
  ("kushida", "クシダ"),
  ("kusuda", "クスダ"),
  ("kusumoto", "クスモト"),
  ("kusunose", "クスノセ"),
  ("kusuyama", "クスヤマ"),
  ("kutsuzawa", "クツザワ"),
  ("kuwabara", "クワバラ"),
  ("kuwahara", "クワハラ"),
  ("kuwano", "クワノ"),
  ("kuwata", "クワタ"),
  ("kuyama", "クヤマ"),
  ("kyodo", "キョウドウ"),
  ("long", "ロン"),
  ("mabuchi", "マブチ"),
  ("machida", "マチダ"),
  ("machino", "マチノ"),
  ("maeba", "マエバ"),
  ("maeda", "マエダ"),
  ("maehara", "マエハラ"),
  ("maejima", "マエジマ"),
  ("maekawa", "マエカワ"),
  ("maemura", "マエムラ"),
  ("maenaka", "マエナカ"),
  ("magota", "マゴタ"),
  ("makabe", "マカベ"),
  ("makimoto", "マキモト"),
  ("makino", "マキノ"),
  ("manabe", "マナベ"),
  ("mano", "マノ"),
  ("marubayashi", "マルバヤシ"),
  ("maruhashi", "マルハシ"),
  ("marui", "マルイ"),
  ("maruo", "マルオ"),
  ("maruta", "マルタ"),
  ("maruyama", "マルヤマ"),
  ("masada", "マサダ"),
  ("masaki", "マサキ"),
  ("masamura", "マサムラ"),
  ("masawa", "マサワ"),
  ("mase", "マセ"),
  ("mastui", "マツイ"),
  ("mastuoka", "マツオカ"),
  ("masuda", "マスダ"),
  ("masumura", "マスムラ"),
  ("masuyama", "マスヤマ"),
  ("matama", "マタマ"),
  ("matoba", "マトバ"),
  ("matsubara", "マツバラ"),
  ("matsubayashi", "マツバヤシ"),
  ("matsuda", "マツダ"),
  ("matsue", "マツエ"),
  ("matsuhama", "マツハマ"),
  ("matsuhashi", "マツハシ"),
  ("matsuhiro", "マツヒロ"),
  ("matsuhisa", "マツヒサ"),
  ("matsui", "マツイ"),
  ("matsukage", "マツカゲ"),
  ("matsukawa", "マツカワ"),
  ("matsukura", "マツクラ"),
  ("matsumaru", "マツマル"),
  ("matsumiya", "マツミヤ"),
  ("matsumoto", "マツモト"),
  ("matsumura", "マツムラ"),
  ("matsuna", "マツナ"),
  ("matsunaga", "マツナガ"),
  ("matsuno", "マツノ"),
  ("matsuo", "マツオ"),
  ("matsuoka", "マツオカ"),
  ("matsusaka", "マツサカ"),
  ("matsushima", "マツシマ"),
  ("matsushita", "マツシタ"),
  ("matsutani", "マツタニ"),
  ("matsuura", "マツウラ"),
  ("matsuwaki", "マツワキ"),
  ("matsuyama", "マツヤマ"),
  ("matsuzaki", "マツザキ"),
  ("matsuzawa", "マツザワ"),
  ("metoki", "メトキ"),
  ("mibiki", "ミビキ"),
  ("michikura", "ミチクラ"),
  ("michishita", "ミチシタ"),
  ("michiura", "ミチウラ"),
  ("michiwaki", "ミチワキ"),
  ("migita", "ミギタ"),
  ("mihara", "ミハラ"),
  ("mikami", "ミカミ"),
  ("miki", "ミキ"),
  ("minagawa", "ミナガワ"),
  ("minami", "ミナミ"),
  ("minamimoto", "ミナミモト"),
  ("minamino", "ミナミノ"),
  ("minamisawa", "ミナミサワ"),
  ("minatoguchi", "ミナトグチ"),
  ("minatoya", "ミナトヤ"),
  ("minatsuki", "ミナツキ"),
  ("mineki", "ミネキ"),
  ("minematsu", "ミネマツ"),
  ("mineo", "ミネオ"),
  ("misaka", "ミサカ"),
  ("misawa", "ミサワ"),
  ("mishima", "ミシマ"),
  ("misumi", "ミスミ"),
  ("mita", "ミタ"),
  ("mitamura", "ミタムラ"),
  ("mito", "ミト"),
  ("mitomo", "ミトモ"),
  ("mitsuba", "ミツバ"),
  ("mitsudo", "ミツドウ"),
  ("mitsuhara", "ミツハラ"),
  ("mitsuhashi", "ミツハシ"),
  ("mitsui", "ミツイ"),
  ("mitsuishi", "ミツイシ"),
  ("mitsuke", "ミツケ"),
  ("mitsumata", "ミツマタ"),
  ("miura", "ミウラ"),
  ("miwa", "ミワ"),
  ("miyabe", "ミヤベ"),
  ("miyachi", "ミヤチ"),
  ("miyagawa", "ミヤガワ"),
  ("miyagi", "ミヤギ"),
  ("miyahara", "ミヤハラ"),
  ("miyaji", "ミヤジ"),
  ("miyajima", "ミヤジマ"),
  ("miyake", "ミヤケ"),
  ("miyama", "ミヤマ"),
  ("miyamoto", "ミヤモト"),
  ("miyanaga", "ミヤナガ"),
  ("miyasaka", "ミヤサカ"),
  ("miyashita", "ミヤシタ"),
  ("miyata", "ミヤタ"),
  ("miyauchi", "ミヤウチ"),
  ("miyazaki", "ミヤザキ"),
  ("miyazawa", "ミヤザワ"),
  ("miyosawa", "ミヨサワ"),
  ("miyoshi", "ミヨシ"),
  ("mizobuchi", "ミゾブチ"),
  ("mizokami", "ミゾカミ"),
  ("mizota", "ミゾタ"),
  ("mizote", "ミゾテ"),
  ("mizuguchi", "ミズグチ"),
  ("mizukami", "ミズカミ"),
  ("mizuno", "ミズノ"),
  ("mizunoya", "ミズノヤ"),
  ("mizusawa", "ミズサワ"),
  ("mizutani", "ミズタニ"),
  ("mochidome", "モチドメ"),
  ("mochizuki", "モチズキ"),
  ("mogi", "モギ"),
  ("momoi", "モモイ"),
  ("monden", "モンデン"),
  ("moniwa", "モニワ"),
  ("mori", "モリ"),
  ("moribayashi", "モリバヤシ"),
  ("moriishi", "モリイシ"),
  ("morikawa", "モリカワ"),
  ("morimoto", "モリモト"),
  ("morino", "モリノ"),
  ("morioka", "モリオカ"),
  ("morisaki", "モリサキ"),
  ("morishige", "モリシゲ"),
  ("morishima", "モリシマ"),
  ("morishita", "モリシタ"),
  ("morita", "モリタ"),
  ("moriuchi", "モリウチ"),
  ("moriwaki", "モリワキ"),
  ("moriya", "モリヤ"),
  ("moriyama", "モリヤマ"),
  ("morofuji", "モロフジ"),
  ("morota", "モロタ"),
  ("motohashi", "モトハシ"),
  ("motoki", "モトキ"),
  ("motooka", "モトオカ"),
  ("motoshima", "モトシマ"),
  ("motoyama", "モトヤマ"),
  ("motozawa", "モトザワ"),
  ("mozawa", "モザワ"),
  ("mukai", "ムカイ"),
  ("mukaida", "ムカイダ"),
  ("munakata", "ムナカタ"),
  ("munehisa", "ムネヒサ"),
  ("murai", "ムライ"),
  ("muraishi", "ムライシ"),
  ("murakami", "ムラカミ"),
  ("murakawa", "ムラカワ"),
  ("muramatsu", "ムラマツ"),
  ("muraoka", "ムラオカ"),
  ("murasato", "ムラサト"),
  ("murase", "ムラセ"),
  ("murata", "ムラタ"),
  ("muro", "ムロ"),
  ("murohara", "ムロハラ"),
  ("murohashi", "ムロハシ"),
  ("murotani", "ムロタニ"),
  ("muroya", "ムロヤ"),
  ("mushiake", "ムシアケ"),
  ("muto", "ムトウ"),
  ("mutoh", "ムトウ"),
  ("mutsuga", "ムツガ"),
  ("myojin", "ミョジン"),
  ("nabeta", "ナベタ"),
  ("nagae", "ナガエ"),
  ("nagahara", "ナガハラ"),
  ("nagai", "ナガイ"),
  ("nagamatsu", "ナガマツ"),
  ("nagamine", "ナガミネ"),
  ("naganawa", "ナガナワ"),
  ("nagano", "ナガノ"),
  ("naganuma", "ナガヌマ"),
  ("nagao", "ナガオ"),
  ("nagasaka", "ナガサカ"),
  ("nagasawa", "ナガサワ"),
  ("nagase", "ナガセ"),
  ("nagata", "ナガタ"),
  ("nagatomo", "ナガトモ"),
  ("nagoshi", "ナゴシ"),
  ("nagumo", "ナグモ"),
  ("naito", "ナイトウ"),
  ("naka", "ナカ"),
  ("nakachi", "ナカチ"),
  ("nakada", "ナカダ"),
  ("nakagami", "ナカガミ"),
  ("nakagata", "ナカガタ"),
  ("nakagawa", "ナカガワ"),
  ("nakahara", "ナカハラ"),
  ("nakahashi", "ナカハシ"),
  ("nakai", "ナカイ"),
  ("nakajima", "ナカジマ"),
  ("nakama", "ナカマ"),
  ("nakamae", "ナカマエ"),
  ("nakamaru", "ナカマル"),
  ("nakamura", "ナカムラ"),
  ("nakanishi", "ナカニシ"),
  ("nakano", "ナカノ"),
  ("nakao", "ナカオ"),
  ("nakaoka", "ナカオカ"),
  ("nakase", "ナカセ"),
  ("nakashima", "ナカシマ"),
  ("nakasuka", "ナカスカ"),
  ("nakata", "ナカタ"),
  ("nakatani", "ナカタニ"),
  ("nakatsuma", "ナカツマ"),
  ("nakaura", "ナカウラ"),
  ("nakayama", "ナカヤマ"),
  ("nakayoshi", "ナカヨシ"),
  ("nakazato", "ナカザト"),
  ("nakazawa", "ナカザワ"),
  ("namba", "ナンバ"),
  ("namiki", "ナミキ"),
  ("namiuchi", "ナミウチ"),
  ("nanao", "ナナオ"),
  ("nanasato", "ナナサト"),
  ("nangoya", "ナンゴヤ"),
  ("naniwa", "ナニワ"),
  ("nanto", "ナント"),
  ("narita", "ナリタ"),
  ("narui", "ナルイ"),
  ("narukawa", "ナルカワ"),
  ("naruse", "ナルセ"),
  ("nasu", "ナス"),
  ("natsuaki", "ナツアキ"),
  ("natsukawa", "ナツカワ"),
  ("natsumeda", "ナツメダ"),
  ("nawada", "ナワダ"),
  ("negishi", "ネギシ"),
  ("neishi", "ネイシ"),
  ("niida", "ニイダ"),
  ("niimi", "ニイミ"),
  ("niinami", "ニイナミ"),
  ("niitsuma", "ニイツマ"),
  ("niiyama", "ニイヤマ"),
  ("niizeki", "ニイゼキ"),
  ("nikaido", "ニカイドウ"),
  ("ninomiya", "ニノミヤ"),
  ("nishi", "ニシ"),
  ("nishida", "ニシダ"),
  ("nishiguchi", "ニシグチ"),
  ("nishihata", "ニシハタ"),
  ("nishihira", "ニシヒラ"),
  ("nishijima", "ニシジマ"),
  ("nishikawa", "ニシカワ"),
  ("nishikura", "ニシクラ"),
  ("nishimiya", "ニシミヤ"),
  ("nishimizu", "ニシミズ"),
  ("nishimori", "ニシモリ"),
  ("nishimoto", "ニシモト"),
  ("nishimura", "ニシムラ"),
  ("nishina", "ニシナ"),
  ("nishino", "ニシノ"),
  ("nishio", "ニシオ"),
  ("nishioka", "ニシオカ"),
  ("nishiura", "ニシウラ"),
  ("nishiya", "ニシヤ"),
  ("nishiyama", "ニシヤマ"),
  ("nishizaki", "ニシザキ"),
  ("nishizawa", "ニシザワ"),
  ("nitta", "ニッタ"),
  ("niwa", "ニワ"),
  ("nobuta", "ノブタ"),
  ("nochioka", "ノチオカ"),
  ("noda", "ノダ"),
  ("node", "ノデ"),
  ("nogami", "ノガミ"),
  ("nogi", "ノギ"),
  ("noguchi", "ノグチ"),
  ("nohara", "ノハラ"),
  ("noike", "ノイケ"),
  ("noiri", "ノイリ"),
  ("nojiri", "ノジリ"),
  ("noma", "ノマ"),
  ("nomi", "ノミ"),
  ("nomoto", "ノモト"),
  ("nomura", "ノムラ"),
  ("nonaka", "ノナカ"),
  ("nonogi", "ノノギ"),
  ("norita", "ノリタ"),
  ("nosaka", "ノサカ"),
  ("notake", "ノタケ"),
  ("nozaki", "ノザキ"),
  ("nozato", "ノザト"),
  ("nozoe", "ノゾエ"),
  ("nuki", "ヌキ"),
  ("numahata", "ヌマハタ"),
  ("numajiri", "ヌマジリ"),
  ("numao", "ヌマオ"),
  ("numasawa", "ヌマサワ"),
  ("numata", "ヌマタ"),
  ("oba", "オオバ"),
  ("obara", "オバラ"),
  ("obata", "オバタ"),
  ("obayashi", "オオバヤシ"),
  ("obi", "オビ"),
  ("obunai", "オブナイ"),
  ("ochi", "オチ"),
  ("ochiai", "オチアイ"),
  ("ochiumi", "オチウミ"),
  ("oda", "オダ"),
  ("odagiri", "オダギリ"),
  ("odanaka", "オダナカ"),
  ("oe", "オエ"),
  ("ogaku", "オガク"),
  ("ogasawara", "オガサワラ"),
  ("ogata", "オガタ"),
  ("ogawa", "オガワ"),
  ("ogimoto", "オギモト"),
  ("ogita", "オギタ"),
  ("oguma", "オグマ"),
  ("ogura", "オグラ"),
  ("oguri", "オグリ"),
  ("ohama", "オオハマ"),
  ("ohara", "オオハラ"),
  ("ohashi", "オオハシ"),
  ("ohata", "オオハタ"),
  ("ohba", "オオバ"),
  ("ohbe", "オオベ"),
  ("ohe", "オオエ"),
  ("ohga", "オウガ"),
  ("ohguchi", "オオグチ"),
  ("ohguro", "オオグロ"),
  ("ohi", "オオイ"),
  ("ohira", "オオヒラ"),
  ("ohishi", "オオイシ"),
  ("ohkawa", "オオカワ"),
  ("ohki", "オオキ"),
  ("ohkita", "オオキタ"),
  ("ohkubo", "オオクボ"),
  ("ohkura", "オオクラ"),
  ("ohmori", "オオモリ"),
  ("ohnishi", "オオニシ"),
  ("ohno", "オオノ"),
  ("ohota", "オホタ"),
  ("ohsaka", "オオサカ"),
  ("ohsawa", "オオサワ"),
  ("ohshima", "オオシマ"),
  ("ohshiro", "オオシロ"),
  ("ohsuga", "オオスガ"),
  ("ohsugi", "オオスギ"),
  ("ohsumi", "オオスミ"),
  ("ohta", "オオタ"),
  ("ohtaka", "オウタカ"),
  ("ohtake", "オオタケ"),
  ("ohtani", "オオタニ"),
  ("ohtomo", "オオトモ"),
  ("ohuchi", "オオウチ"),
  ("ohwada", "オオワダ"),
  ("ohwaki", "オオワキ"),
  ("ohya", "オオヤ"),
  ("ohyama", "オオヤマ"),
  ("oikawa", "オイカワ"),
  ("oishi", "オオイシ"),
  ("oiwa", "オオイワ"),
  ("oizumi", "オオイズミ"),
  ("oka", "オカ"),
  ("okabe", "オカベ"),
  ("okada", "オカダ"),
  ("okai", "オカイ"),
  ("okajima", "オカジマ"),
  ("okamatsu", "オカマツ"),
  ("okamoto", "オカモト"),
  ("okamura", "オカムラ"),
  ("okata", "オカタ"),
  ("okayama", "オカヤマ"),
  ("okazaki", "オカザキ"),
  ("okazawa", "オカザワ"),
  ("oketani", "オケタニ"),
  ("oki", "オオキ"),
  ("okina", "オキナ"),
  ("okino", "オキノ"),
  ("okita", "オキタ"),
  ("okonogi", "オコノギ"),
  ("okoshi", "オオコシ"),
  ("oku", "オク"),
  ("okubo", "オオクボ"),
  ("okuda", "オクダ"),
  ("okui", "オクイ"),
  ("okumoto", "オクモト"),
  ("okumura", "オクムラ"),
  ("okuno", "オクノ"),
  ("okura", "オオクラ"),
  ("okutsu", "オオクツ"),
  ("okuyama", "オクヤマ"),
  ("omori", "オオモリ"),
  ("omote", "オモテ"),
  ("omura", "オオムラ"),
  ("omuro", "オムロ"),
  ("onish", "オオニシ"),
  ("onishi", "オオニシ"),
  ("ono", "オノ"),
  ("onodera", "オノデラ"),
  ("onoue", "オノウエ"),
  ("onozato", "オノザト"),
  ("onuma", "オヌマ"),
  ("ooba", "オオバ"),
  ("oobayashi", "オオバヤシ"),
  ("oochi", "オオチ"),
  ("oodate", "オオダテ"),
  ("oogaku", "オオガク"),
  ("ooguchi", "オオグチ"),
  ("ooguro", "オオグロ"),
  ("oohara", "オオハラ"),
  ("oohashi", "オオハシ"),
  ("ooi", "オオイ"),
  ("ookawa", "オオカワ"),
  ("ookita", "オオキタ"),
  ("ookubo", "オオクボ"),
  ("oomori", "オオモリ"),
  ("oomura", "オオムラ"),
  ("oonishi", "オオニシ"),
  ("oono", "オオノ"),
  ("oosaka", "オオサカ"),
  ("oosaki", "オオサキ"),
  ("oosawa", "オオサワ"),
  ("ooshima", "オオシマ"),
  ("oosugi", "オオスギ"),
  ("oouchi", "オオウチ"),
  ("oowada", "オオワダ"),
  ("ooya", "オオヤ"),
  ("oozato", "オオザト"),
  ("orihashi", "オリハシ"),
  ("osaka", "オオサカ"),
  ("osakada", "オサカダ"),
  ("osaki", "オサキ"),
  ("osawa", "オオサワ"),
  ("oshida", "オシダ"),
  ("oshima", "オオシマ"),
  ("oshino", "オシノ"),
  ("oshinomi", "オシノミ"),
  ("oshita", "オシタ"),
  ("oshitomi", "オシトミ"),
  ("osuga", "オスガ"),
  ("osumi", "オオスミ"),
  ("ota", "オオタ"),
  ("otaka", "オタカ"),
  ("otake", "オオタケ"),
  ("otaki", "オオタキ"),
  ("otani", "オオタニ"),
  ("otomo", "オオトモ"),
  ("otowa", "オトワ"),
  ("otsuba", "オオツバ"),
  ("otsubo", "オオツボ"),
  ("otsuji", "オオツジ"),
  ("otsuka", "オオツカ"),
  ("otsuki", "オオツキ"),
  ("ouchi", "オオウチ"),
  ("oura", "オオウラ"),
  ("owa", "オワ"),
  ("oyama", "オヤマ"),
  ("oyatani", "オヤタニ"),
  ("oyoshi", "オオヨシ"),
  ("ozaki", "オザキ"),
  ("ozasa", "オザサ"),
  ("ozawa", "オザワ"),
  ("ozono", "オオゾノ"),
  ("ozu", "オズ"),
  ("riku", "リク"),
  ("saburi", "サブリ"),
  ("sada", "サダ"),
  ("sadachi", "サダチ"),
  ("sadamatsu", "サダマツ"),
  ("saeki", "サエキ"),
  ("sago", "サゴ"),
  ("sahashi", "サハシ"),
  ("sai", "サイ"),
  ("saigan", "サイガン"),
  ("saigusa", "サイグサ"),
  ("saiin", "サイイン"),
  ("saiki", "サイキ"),
  ("saito", "サイトウ"),
  ("saitoh", "サイトウ"),
  ("saji", "サヂ"),
  ("saka", "サカ"),
  ("sakagami", "サカガミ"),
  ("sakaguchi", "サカグチ"),
  ("sakai", "サカイ"),
  ("sakaino", "サカイノ"),
  ("sakakura", "サカクラ"),
  ("sakamoto", "サカモト"),
  ("sakane", "サカネ"),
  ("sakata", "サカタ"),
  ("sakaue", "サカウエ"),
  ("sakio", "サキオ"),
  ("sakon", "サコン"),
  ("saku", "サク"),
  ("sakui", "サクイ"),
  ("sakuma", "サクマ"),
  ("sakurada", "サクラダ"),
  ("sakurai", "サクライ"),
  ("sambe", "サンべ"),
  ("sangen", "サンゲン"),
  ("sano", "サノ"),
  ("sanomura", "サノムラ"),
  ("sanui", "サヌイ"),
  ("saotome", "サオトメ"),
  ("sarai", "サライ"),
  ("sasabuchi", "ササブチ"),
  ("sasahira", "ササヒラ"),
  ("sasaki", "ササキ"),
  ("sasano", "ササノ"),
  ("sasaoka", "ササオカ"),
  ("sata", "サタ"),
  ("sato", "サトウ"),
  ("satogami", "サトガミ"),
  ("satoh", "サトウ"),
  ("satomi", "サトミ"),
  ("satow", "サトウ"),
  ("satsurai", "サツライ"),
  ("sawabata", "サワバタ"),
  ("sawada", "サワダ"),
  ("sawaguchi", "サワグチ"),
  ("sawano", "サワノ"),
  ("sawanobori", "サワノボリ"),
  ("sawatani", "サワタニ"),
  ("sawatari", "サワタリ"),
  ("sawayama", "サワヤマ"),
  ("sayama", "サヤマ"),
  ("segawa", "セガワ"),
  ("seguchi", "セグチ"),
  ("seike", "セイケ"),
  ("seiyama", "セイヤマ"),
  ("seki", "セキ"),
  ("sekido", "セキド"),
  ("sekiguchi", "セキグチ"),
  ("sekimoto", "セキモト"),
  ("seno", "セノ"),
  ("senoo", "セノオ"),
  ("seo", "セオ"),
  ("serikawa", "セリカワ"),
  ("setake", "セタケ"),
  ("seto", "セト"),
  ("setogawa", "セトガワ"),
  ("setoguchi", "セトグチ"),
  ("setoyama", "セトヤマ"),
  ("shiba", "シバ"),
  ("shibahashi", "シバハシ"),
  ("shibasaki", "シバサキ"),
  ("shibata", "シバタ"),
  ("shibui", "シブイ"),
  ("shibutani", "シブタニ"),
  ("shigematsu", "シゲマツ"),
  ("shigemoto", "シゲモト"),
  ("shigeta", "シゲタ"),
  ("shigetoshi", "シゲトシ"),
  ("shigihara", "シギハラ"),
  ("shiina", "シイナ"),
  ("shiiya", "シイヤ"),
  ("shikanai", "シカナイ"),
  ("shiko", "シコ"),
  ("shima", "シマ"),
  ("shimabukuro", "シマブクロ"),
  ("shimada", "シマダ"),
  ("shimahara", "シマハラ"),
  ("shimamoto", "シマモト"),
  ("shimamura", "シマムラ"),
  ("shimazaki", "シマザキ"),
  ("shimazu", "シマズ"),
  ("shimizu", "シミズ"),
  ("shimoda", "シモダ"),
  ("shimoji", "シモジ"),
  ("shimojo", "シモジョウ"),
  ("shimokawa", "シモカワ"),
  ("shimomura", "シモムラ"),
  ("shimonaga", "シモナガ"),
  ("shimono", "シモノ"),
  ("shimosato", "シモサト"),
  ("shimoyama", "シモヤマ"),
  ("shimozawa", "シモザワ"),
  ("shimura", "シムラ"),
  ("shinboku", "シンボク"),
  ("shindo", "シンドウ"),
  ("shinke", "シンケ"),
  ("shinmura", "シンムラ"),
  ("shinoda", "シノダ"),
  ("shinohara", "シノハラ"),
  ("shinozaki", "シノザキ"),
  ("shintaku", "シンタク"),
  ("shintani", "シンタニ"),
  ("shiode", "シオデ"),
  ("shiohira", "シオヒラ"),
  ("shioji", "シオジ"),
  ("shiojima", "シオジマ"),
  ("shiokawa", "シオカワ"),
  ("shiomi", "シオミ"),
  ("shiomura", "シオムラ"),
  ("shiono", "シオノ"),
  ("shiozaki", "シオザキ"),
  ("shiozawa", "シオザワ"),
  ("shirahama", "シラハマ"),
  ("shirai", "シライ"),
  ("shiraishi", "シライシ"),
  ("shirakabe", "シラカベ"),
  ("shiraki", "シラキ"),
  ("shirasaka", "シラサカ"),
  ("shirasaki", "シラサキ"),
  ("shiroshita", "シロシタ"),
  ("shirota", "シロタ"),
  ("shirotani", "シロタニ"),
  ("shiroto", "シロト"),
  ("shishido", "シシド"),
  ("shishikura", "シシクラ"),
  ("shitan", "シタン"),
  ("shitara", "シタラ"),
  ("shite", "シテ"),
  ("shizuta", "シズタ"),
  ("shoda", "ショウダ"),
  ("shoji", "ショウジ"),
  ("shojima", "ショウジマ"),
  ("shoumura", "ショウムラ"),
  ("shutta", "シュッタ"),
  ("sindo", "シンドウ"),
  ("sobue", "ソブエ"),
  ("soeda", "ソエダ"),
  ("soejima", "ソエジマ"),
  ("soga", "ソガ"),
  ("sogabe", "ソガベ"),
  ("sogo", "ソゴウ"),
  ("sohma", "ソウマ"),
  ("soma", "ソマ"),
  ("sone", "ソネ"),
  ("sonoda", "ソノダ"),
  ("sorimachi", "ソリマチ"),
  ("sotomi", "ソトミ"),
  ("suda", "スダ"),
  ("sudo", "スドウ"),
  ("suematsu", "スエマツ"),
  ("sueta", "スエタ"),
  ("suga", "スガ"),
  ("sugae", "スガエ"),
  ("sugane", "スガネ"),
  ("sugano", "スガノ"),
  ("sugawara", "スガワラ"),
  ("sugaya", "スガヤ"),
  ("sugie", "スギエ"),
  ("sugihara", "スギハラ"),
  ("sugimoto", "スギモト"),
  ("sugimura", "スギムラ"),
  ("sugino", "スギノ"),
  ("sugitani", "スギタニ"),
  ("sugiura", "スギウラ"),
  ("sugiyama", "スギヤマ"),
  ("sugizaki", "スギザキ"),
  ("suguro", "スグロ"),
  ("sukeda", "スケダ"),
  ("sukehiro", "スケヒロ"),
  ("sumida", "スミダ"),
  ("sumii", "スミイ"),
  ("sumimoto", "スミモト"),
  ("sumita", "スミタ"),
  ("sumitsuji", "スミツジ"),
  ("sumiyoshi", "スミヨシ"),
  ("suna", "スナ"),
  ("sunaga", "スナガ"),
  ("sunamura", "スナムラ"),
  ("sunohara", "スノハラ"),
  ("suwa", "スワ"),
  ("suzuki", "スズキ"),
  ("tabata", "タバタ"),
  ("tabita", "タビタ"),
  ("tabuchi", "タブチ"),
  ("tachibana", "タチバナ"),
  ("tachimori", "タチモリ"),
  ("tada", "タダ"),
  ("tadano", "タダノ"),
  ("tadokoro", "タドコロ"),
  ("tagawa", "タガワ"),
  ("taguchi", "タグチ"),
  ("taguri", "タグリ"),
  ("tahara", "タハラ"),
  ("taira", "タイラ"),
  ("tajima", "タジマ"),
  ("takada", "タカダ"),
  ("takae", "タカエ"),
  ("takafumi", "タカフミ"),
  ("takagaki", "タカガキ"),
  ("takagi", "タカギ"),
  ("takahama", "タカハマ"),
  ("takahara", "タカハラ"),
  ("takahashi", "タカハシ"),
  ("takahata", "タカハタ"),
  ("takaki", "タカキ"),
  ("takama", "タカマ"),
  ("takamatsu", "タカマツ"),
  ("takami", "タカミ"),
  ("takamisawa", "タカミサワ"),
  ("takamiya", "タカミヤ"),
  ("takamizawa", "タカミザワ"),
  ("takamura", "タカムラ"),
  ("takano", "タカノ"),
  ("takaoka", "タカオカ"),
  ("takasaki", "タカサキ"),
  ("takase", "タカセ"),
  ("takashima", "タカシマ"),
  ("takashio", "タカシオ"),
  ("takasu", "タカス"),
  ("takata", "タカタ"),
  ("takatsu", "タカツ"),
  ("takaya", "タカヤ"),
  ("takayama", "タカヤマ"),
  ("takebayashi", "タケバヤシ"),
  ("takeda", "タケダ"),
  ("takegami", "タケガミ"),
  ("takehara", "タケハラ"),
  ("takei", "タケイ"),
  ("takeishi", "タケイシ"),
  ("takeji", "タケジ"),
  ("takekawa", "タケカワ"),
  ("takemoto", "タケモト"),
  ("takemura", "タケムラ"),
  ("takenaka", "タケナカ"),
  ("takenouchi", "タケノウチ"),
  ("takenoya", "タケノヤ"),
  ("takeshita", "タケシタ"),
  ("takeuchi", "タケウチ"),
  ("takewa", "タケワ"),
  ("takeyama", "タケヤマ"),
  ("takigami", "タキガミ"),
  ("takiguchi", "タキグチ"),
  ("takii", "タキイ"),
  ("takita", "タキタ"),
  ("takou", "タコウ"),
  ("takuma", "タクマ"),
  ("takumi", "タクミ"),
  ("takura", "タクラ"),
  ("tama", "タマ"),
  ("tamada", "タマダ"),
  ("tamaki", "タマキ"),
  ("tamanaha", "タマナハ"),
  ("tambara", "タバラ"),
  ("taminishi", "タミニシ"),
  ("tamoto", "タモト"),
  ("tamura", "タムラ"),
  ("tanabe", "タナベ"),
  ("tanaka", "タナカ"),
  ("tang", "タン"),
  ("tani", "タニ"),
  ("tanichi", "タニチ"),
  ("tanigaki", "タニガキ"),
  ("tanigawa", "タニガワ"),
  ("taniguchi", "タニグチ"),
  ("tanimoto", "タニモト"),
  ("tanimura", "タニムラ"),
  ("taninobu", "タニノブ"),
  ("tanisawa", "タニサワ"),
  ("tanita", "タニタ"),
  ("taniuchi", "タニウチ"),
  ("taniwaki", "タニワキ"),
  ("tanizaki", "タニザキ"),
  ("tanouchi", "タノウチ"),
  ("tao", "タオ"),
  ("taomoto", "タオモト"),
  ("tara", "タラ"),
  ("taruya", "タルヤ"),
  ("tasaka", "タサカ"),
  ("tashima", "タシマ"),
  ("tashiro", "タシロ"),
  ("tatami", "タタミ"),
  ("tateishi", "タテイシ"),
  ("tateyama", "タテヤマ"),
  ("tatsugami", "タツガミ"),
  ("tatsumi", "タツミ"),
  ("tatsushima", "タツシマ"),
  ("tawara", "タワラ"),
  ("tawarahara", "タワラハラ"),
  ("tayama", "タヤマ"),
  ("tazaki", "タザキ"),
  ("tazawa", "タザワ"),
  ("terada", "テラダ"),
  ("terai", "テライ"),
  ("terajima", "テラジマ"),
  ("teramura", "テラムラ"),
  ("terao", "テラオ"),
  ("terasaka", "テラサカ"),
  ("terashita", "テラシタ"),
  ("terauchi", "テラウチ"),
  ("terui", "テルイ"),
  ("teshima", "テシマ"),
  ("tezuka", "テズカ"),
  ("toba", "トバ"),
  ("tobari", "トバリ"),
  ("tobaru", "トバル"),
  ("tobe", "トベ"),
  ("tobita", "トビタ"),
  ("tochiya", "トチヤ"),
  ("toda", "トダ"),
  ("todoroki", "トドロキ"),
  ("toguchi", "トグチ"),
  ("toh", "トウ"),
  ("tohara", "トハラ"),
  ("toida", "トイダ"),
  ("tojo", "トウジョウ"),
  ("tokai", "トウカイ"),
  ("tokano", "トカノ"),
  ("tokashiki", "トカシキ"),
  ("tokioka", "トキオカ"),
  ("tokita", "トキタ"),
  ("tokuda", "トクダ"),
  ("tokuhisa", "トクヒサ"),
  ("tokunaga", "トクナガ"),
  ("tokuno", "トクノ"),
  ("tokushige", "トクシゲ"),
  ("tokuyama", "トクヤマ"),
  ("toma", "トマ"),
  ("tomii", "トミイ"),
  ("tominaga", "トミナガ"),
  ("tomita", "トミタ"),
  ("tomoda", "トモダ"),
  ("tomotsuka", "トモツカ"),
  ("tomura", "トムラ"),
  ("tonomura", "トノムラ"),
  ("torii", "トリイ"),
  ("torikoshi", "トリコシ"),
  ("toriya", "トリヤ"),
  ("tosaka", "トサカ"),
  ("toshihiro", "トシヒロ"),
  ("toshiki", "トシキ"),
  ("toshima", "トシマ"),
  ("toubaru", "トウバル"),
  ("toya", "トヤ"),
  ("toyama", "トヤマ"),
  ("toyoda", "トヨダ"),
  ("toyofuku", "トヨフク"),
  ("toyoshima", "トヨシマ"),
  ("toyota", "トヨタ"),
  ("tsubakimoto", "ツバキモト"),
  ("tsubata", "ツバタ"),
  ("tsuboi", "ツボイ"),
  ("tsubono", "ツボノ"),
  ("tsuboyama", "ツボヤマ"),
  ("tsuchida", "ツチダ"),
  ("tsuchikane", "ツチカネ"),
  ("tsuchiya", "ツチヤ"),
  ("tsuchiyama", "ツチヤマ"),
  ("tsuda", "ツダ"),
  ("tsudome", "ツドメ"),
  ("tsugawa", "ツガワ"),
  ("tsugita", "ツギタ"),
  ("tsugu", "ツグ"),
  ("tsuji", "ツジ"),
  ("tsujihata", "ツジハタ"),
  ("tsujimoto", "ツジモト"),
  ("tsujimura", "ツジムラ"),
  ("tsujino", "ツジノ"),
  ("tsujita", "ツジタ"),
  ("tsukada", "ツカダ"),
  ("tsukahara", "ツカハラ"),
  ("tsukamoto", "ツカモト"),
  ("tsukinowa", "ツキノワ"),
  ("tsukiyama", "ツキヤマ"),
  ("tsukui", "ツクイ"),
  ("tsumaru", "ツマル"),
  ("tsunaki", "ツナキ"),
  ("tsunamoto", "ツナモト"),
  ("tsuneyoshi", "ツネヨシ"),
  ("tsunoda", "ツノダ"),
  ("tsuru", "ツル"),
  ("tsuruda", "ツルダ"),
  ("tsuruta", "ツルタ"),
  ("tsushima", "ツシマ"),
  ("tsutsui", "ツツイ"),
  ("tsutsumi", "ツツミ"),
  ("uchida", "ウチダ"),
  ("uchigata", "ウチガタ"),
  ("uchino", "ウチノ"),
  ("uchio", "ウチオ"),
  ("uchiyama", "ウチヤマ"),
  ("ueda", "ウエダ"),
  ("uegaito", "ウエガイト"),
  ("uehara", "ウエハラ"),
  ("ueki", "ウエキ"),
  ("uematsu", "ウエマツ"),
  ("uemura", "ウエムラ"),
  ("ueno", "ウエノ"),
  ("ueshima", "ウエシマ"),
  ("uesugi", "ウエスギ"),
  ("ueyama", "ウエヤマ"),
  ("ugawa", "ウガワ"),
  ("ukai", "ウカイ"),
  ("ukawa", "ウカワ"),
  ("ukita", "ウキタ"),
  ("umeda", "ウメダ"),
  ("umemoto", "ウメモト"),
  ("umemura", "ウメムラ"),
  ("umetani", "ウメタニ"),
  ("umino", "ウミノ"),
  ("une", "ウネ"),
  ("uno", "ウノ"),
  ("unoki", "ウノキ"),
  ("urabe", "ウラベ"),
  ("uranaka", "ウラナカ"),
  ("urata", "ウラタ"),
  ("urushida", "ウルシダ"),
  ("usami", "ウサミ"),
  ("ushijima", "ウシジマ"),
  ("usuda", "ウスダ"),
  ("usui", "ウスイ"),
  ("usuku", "ウスク"),
  ("usumoto", "ウスモト"),
  ("uwatoko", "ウワトコ"),
  ("uzu", "ウズ"),
  ("uzui", "ウズイ"),
  ("wada", "ワダ"),
  ("wakabayashi", "ワカバヤシ"),
  ("wakami", "ワカミ"),
  ("wakana", "ワカナ"),
  ("wakasa", "ワカサ"),
  ("wakatsuki", "ワカツキ"),
  ("wake", "ワケ"),
  ("waki", "ワキ"),
  ("wakita", "ワキタ"),
  ("wakugawa", "ワクガワ"),
  ("wanezaki", "ワネザキ"),
  ("warisawa", "ワリサワ"),
  ("waseda", "ワセダ"),
  ("washima", "ワシマ"),
  ("washimi", "ワシミ"),
  ("washiyama", "ワシヤマ"),
  ("watabe", "ワタベ"),
  ("watanabe", "ワタナベ"),
  ("watarai", "ワタライ"),
  ("yabe", "ヤベ"),
  ("yabumoto", "ヤブモト"),
  ("yabushita", "ヤブシタ"),
  ("yagasaki", "ヤガサキ"),
  ("yagi", "ヤギ"),
  ("yagihashi", "ヤギハシ"),
  ("yaginuma", "ヤギヌマ"),
  ("yaguchi", "ヤグチ"),
  ("yahagi", "ヤハギ"),
  ("yahata", "ヤハタ"),
  ("yahikozawa", "ヤヒコザワ"),
  ("yajima", "ヤジマ"),
  ("yaku", "ヤク"),
  ("yakushiji", "ヤクシジ"),
  ("yamabe", "ヤマベ"),
  ("yamada", "ヤマダ"),
  ("yamagami", "ヤマガミ"),
  ("yamaguchi", "ヤマグチ"),
  ("yamaji", "ヤマジ"),
  ("yamakage", "ヤマカゲ"),
  ("yamakami", "ヤマカミ"),
  ("yamakawa", "ヤマカワ"),
  ("yamaki", "ヤマキ"),
  ("yamamoto", "ヤマモト"),
  ("yamamura", "ヤマムラ"),
  ("yamana", "ヤマナ"),
  ("yamanaga", "ヤマナガ"),
  ("yamanaka", "ヤマナカ"),
  ("yamane", "ヤマネ"),
  ("yamano", "ヤマノ"),
  ("yamasaki", "ヤマサキ"),
  ("yamase", "ヤマセ"),
  ("yamashina", "ヤマシナ"),
  ("yamashiro", "ヤマシロ"),
  ("yamashita", "ヤマシタ"),
  ("yamato", "ヤマト"),
  ("yamauchi", "ヤマウチ"),
  ("yamawaki", "ヤマワキ"),
  ("yamaya", "ヤマヤ"),
  ("yamazaki", "ヤマザキ"),
  ("yanagawa", "ヤナガワ"),
  ("yanagi", "ヤナギ"),
  ("yanaka", "ヤナカ"),
  ("yanishi", "ヤニシ"),
  ("yano", "ヤノ"),
  ("yao", "ヤオ"),
  ("yara", "ヤラ"),
  ("yashige", "ヤシゲ"),
  ("yashima", "ヤシマ"),
  ("yasu", "ヤス"),
  ("yasuda", "ヤスダ"),
  ("yasuhara", "ヤスハラ"),
  ("yasui", "ヤスイ"),
  ("yasumoto", "ヤスモト"),
  ("yasumura", "ヤスムラ"),
  ("yasunaga", "ヤスナガ"),
  ("yatsu", "ヤツ"),
  ("yatsuda", "ヤツダ"),
  ("yatsuya", "ヤツヤ"),
  ("yoda", "ヨダ"),
  ("yokoi", "ヨコイ"),
  ("yokomatsu", "ヨコマツ"),
  ("yokomine", "ヨコミネ"),
  ("yokoo", "ヨコオ"),
  ("yokota", "ヨコタ"),
  ("yokoya", "ヨコヤ"),
  ("yokoyama", "ヨコヤマ"),
  ("yonamine", "ヨナミネ"),
  ("yoneda", "ヨネダ"),
  ("yoneoka", "ヨネオカ"),
  ("yonetsu", "ヨネツ"),
  ("yoneyama", "ヨネヤマ"),
  ("yonezawa", "ヨネザワ"),
  ("yonezu", "ヨネズ"),
  ("yoshida", "ヨシダ"),
  ("yoshihara", "ヨシハラ"),
  ("yoshihisa", "ヨシヒサ"),
  ("yoshijima", "ヨシジマ"),
  ("yoshikai", "ヨシカイ"),
  ("yoshikawa", "ヨシカワ"),
  ("yoshiki", "ヨシキ"),
  ("yoshimachi", "ヨシマチ"),
  ("yoshimitsu", "ヨシミツ"),
  ("yoshimoto", "ヨシモト"),
  ("yoshimura", "ヨシムラ"),
  ("yoshinaga", "ヨシナガ"),
  ("yoshino", "ヨシノ"),
  ("yoshioka", "ヨシオカ"),
  ("yoshitani", "ヨシタニ"),
  ("yoshitomi", "ヨシトミ"),
  ("yoshiura", "ヨシウラ"),
  ("yoshizaki", "ヨシザキ"),
  ("yoshizane", "ヨシザネ"),
  ("yoshizawa", "ヨシザワ"),
  ("yoshizumi", "ヨシズミ"),
  ("yuasa", "ユアサ"),
  ("yufu", "ユフ"),
  ("yuge", "ユゲ"),
  ("yui", "ユイ"),
  ("yuki", "ユキ"),
  ("yumoto", "ユモト"),
  ("yunoki", "ユノキ"),
  ("yuri", "ユリ"),
  ("yutani", "ユタニ"),
  ("yuzawa", "ユザワ"),
  ("zaima", "ザイマ"),
  ("zuguchi", "ズグチ")
]

/-- `KATAKANA_FIRSTNAME_OVERRIDE`, in source order (duplicate keys kept). -/
def KATAKANA_FIRSTNAME_OVERRIDE : List (String × String) := [
  ("ai", "アイ"),
  ("aina", "アイナ"),
  ("akane", "アカネ"),
  ("akashi", "アカシ"),
  ("aki", "アキ"),
  ("akifumi", "アキフミ"),
  ("akihiko", "アキヒコ"),
  ("akihiro", "アキヒロ"),
  ("akihito", "アキヒト"),
  ("akiko", "アキコ"),
  ("akimasa", "アキマサ"),
  ("akinori", "アキノリ"),
  ("akio", "アキオ"),
  ("akiomi", "アキオミ"),
  ("akira", "アキラ"),
  ("akiteru", "アキテル"),
  ("akito", "アキト"),
  ("akitoshi", "アキトシ"),
  ("akiyoshi", "アキヨシ"),
  ("amane", "アマネ"),
  ("ami", "アミ"),
  ("anna", "アンナ"),
  ("arano", "アラノ"),
  ("arata", "アラタ"),
  ("arihiro", "アリヒロ"),
  ("aritaka", "アリタカ"),
  ("aritomo", "アリトモ"),
  ("asahiro", "アサヒロ"),
  ("asami", "アサミ"),
  ("asataro", "アサタロウ"),
  ("asataro", "アサタロウ"),
  ("atomu", "アトム"),
  ("atsuhiko", "アツヒコ"),
  ("atsuhiro", "アツヒロ"),
  ("atsuki", "アツキ"),
  ("atsuko", "アツコ"),
  ("atsumi", "アツミ"),
  ("atsunori", "アツノリ"),
  ("atsuo", "アツオ"),
  ("atsushi", "アツシ"),
  ("atsutaka", "アツタカ"),
  ("atsuya", "アツヤ"),
  ("atsuyoshi", "アツヨシ"),
  ("atsuyuki", "アツユキ"),
  ("aya", "アヤ"),
  ("ayaka", "アヤカ"),
  ("ayako", "アヤコ"),
  ("ayane", "アヤネ"),
  ("ayano", "アヤノ"),
  ("ayumi", "アユミ"),
  ("ayumu", "アユム"),
  ("azusa", "アズサ"),
  ("chiaki", "チアキ"),
  ("chie", "チエ"),
  ("chietsugu", "チエツグ"),
  ("chiharu", "チハル"),
  ("chika", "チカ"),
  ("chikai", "チカイ"),
  ("chikako", "チカコ"),
  ("chikao", "チカオ"),
  ("chikara", "チカラ"),
  ("chisato", "チサト"),
  ("dai", "ダイ"),
  ("daichi", "ダイチ"),
  ("daigo", "ダイゴ"),
  ("daijiro", "ダイジロウ"),
  ("daiju", "ダイジュ"),
  ("daiki", "ダイキ"),
  ("daisaku", "ダイサク"),
  ("daishi", "ダイシ"),
  ("daisuke", "ダイスケ"),
  ("daitaro", "ダイタロウ"),
  ("eigo", "エイゴ"),
  ("eiichi", "エイイチ"),
  ("eiichiro", "エイイチロウ"),
  ("eiji", "エイジ"),
  ("eiki", "エイキ"),
  ("eiko", "エイコ"),
  ("eiryu", "エイリュウ"),
  ("eisaku", "エイサク"),
  ("eisei", "エイセイ"),
  ("eisuke", "エイスケ"),
  ("eizo", "エイゾウ"),
  ("emi", "エミ"),
  ("eri", "エリ"),
  ("erika", "エリカ"),
  ("etsu", "エツ"),
  ("etsuji", "エツジ"),
  ("etsuko", "エツコ"),
  ("etsumi", "エツミ"),
  ("etsuo", "エツオ"),
  ("fujio", "フジオ"),
  ("fumiaki", "フミアキ"),
  ("fumie", "フミエ"),
  ("fumiharu", "フミハル"),
  ("fumika", "フミカ"),
  ("fuminari", "フミナリ"),
  ("fuminobu", "フミノブ"),
  ("fumitaka", "フミタカ"),
  ("fumitoshi", "フミトシ"),
  ("fumiya", "フミヤ"),
  ("fumiyasu", "フミヤス"),
  ("fumiyuki", "フミユキ"),
  ("futoshi", "フトシ"),
  ("gaku", "ガク"),
  ("genki", "ゲンキ"),
  ("genryu", "ゲンリュウ"),
  ("giichi", "ギイチ"),
  ("go", "ゴウ"),
  ("goro", "ゴロウ"),
  ("hajime", "ハジメ"),
  ("haruhiko", "ハルヒコ"),
  ("haruhito", "ハルヒト"),
  ("haruka", "ハルカ"),
  ("harukazu", "ハルカズ"),
  ("haruki", "ハルキ"),
  ("harumi", "ハルミ"),
  ("haruo", "ハルオ"),
  ("harutoshi", "ハルトシ"),
  ("haruya", "ハルヤ"),
  ("haruyuki", "ハルユキ"),
  ("hayashi", "ハヤシ"),
  ("hayato", "ハヤト"),
  ("heima", "ヘイマ"),
  ("heitaro", "ヘイタロウ"),
  ("hideaki", "ヒデアキ"),
  ("hidefumi", "ヒデフミ"),
  ("hideharu", "ヒデハル"),
  ("hidehiko", "ヒデヒコ"),
  ("hideichi", "ヒデイチ"),
  ("hidekazu", "ヒデカズ"),
  ("hideki", "ヒデキ"),
  ("hidekuni", "ヒデクニ"),
  ("hidemaro", "ヒデマロ"),
  ("hidemasa", "ヒデマサ"),
  ("hidemori", "ヒデモリ"),
  ("hidenari", "ヒデナリ"),
  ("hidenobu", "ヒデノブ"),
  ("hidenori", "ヒデノリ"),
  ("hideo", "ヒデオ"),
  ("hidesato", "ヒデサト"),
  ("hideshi", "ヒデシ"),
  ("hidetaka", "ヒデタカ"),
  ("hideto", "ヒデト"),
  ("hidetomo", "ヒデトモ"),
  ("hidetoshi", "ヒデトシ"),
  ("hidetsugu", "ヒデツグ"),
  ("hideya", "ヒデヤ"),
  ("hideyuki", "ヒデユキ"),
  ("hikaru", "ヒカル"),
  ("himika", "ヒミカ"),
  ("hiraku", "ヒラク"),
  ("hiroaki", "ヒロアキ"),
  ("hirofumi", "ヒロフミ"),
  ("hiroharu", "ヒロハル"),
  ("hirohide", "ヒロヒデ"),
  ("hirohiko", "ヒロヒコ"),
  ("hirohisa", "ヒロヒサ"),
  ("hirohito", "ヒロヒト"),
  ("hirokazu", "ヒロカズ"),
  ("hiroki", "ヒロキ"),
  ("hirokuni", "ヒロクニ"),
  ("hiromasa", "ヒロマサ"),
  ("hiromi", "ヒロミ"),
  ("hiromichi", "ヒロミチ"),
  ("hiromitsu", "ヒロミツ"),
  ("hiromoto", "ヒロモト"),
  ("hiromu", "ヒロム"),
  ("hironaga", "ヒロナガ"),
  ("hironobu", "ヒロノブ"),
  ("hironori", "ヒロノリ"),
  ("hirooki", "ヒロオキ"),
  ("hirosada", "ヒロサダ"),
  ("hirosato", "ヒロサト"),
  ("hiroshi", "ヒロシ"),
  ("hirosuke", "ヒロスケ"),
  ("hirota", "ヒロタ"),
  ("hirotaka", "ヒロタカ"),
  ("hirotake", "ヒロタケ"),
  ("hiroto", "ヒロト"),
  ("hirotoshi", "ヒロトシ"),
  ("hirotsugu", "ヒロツグ"),
  ("hiroya", "ヒロヤ"),
  ("hiroyasu", "ヒロヤス"),
  ("hiroyo", "ヒロヨ"),
  ("hiroyoshi", "ヒロヨシ"),
  ("hiroyuki", "ヒロユキ"),
  ("hisaaki", "ヒサアキ"),
  ("hisahiko", "ヒサヒコ"),
  ("hisahito", "ヒサヒト"),
  ("hisaki", "ヒサキ"),
  ("hisako", "ヒサコ"),
  ("hisanori", "ヒサノリ"),
  ("hisao", "ヒサオ"),
  ("hisashi", "ヒサシ"),
  ("hisateru", "ヒサテル"),
  ("hisato", "ヒサト"),
  ("hisatomi", "ヒサトミ"),
  ("hisayuki", "ヒサユキ"),
  ("hitomi", "ヒトミ"),
  ("hitoshi", "ヒトシ"),
  ("hoshito", "ホシト"),
  ("hyuma", "ヒュマ"),
  ("ichiro", "イチロウ"),
  ("ichitaro", "イチタロウ"),
  ("iichiro", "イイチロウ"),
  ("ikuko", "イクコ"),
  ("ikumi", "イクミ"),
  ("ikuo", "イクオ"),
  ("ippei", "イッペイ"),
  ("isamu", "イサム"),
  ("isao", "イサオ"),
  ("issei", "イッセイ"),
  ("itaru", "イタル"),
  ("itsuro", "イツロウ"),
  ("itta", "イッタ"),
  ("iwao", "イワオ"),
  ("jin", "ジン"),
  ("jiro", "ジロウ"),
  ("jo", "ジョウ"),
  ("joh", "ジョウ"),
  ("joji", "ジョウジ"),
  ("jota", "ジョウタ"),
  ("jumpei", "ジュンペイ"),
  ("jun", "ジュン"),
  ("jun-ei", "ジュンエイ"),
  ("junichi", "ジュンイチ"),
  ("jun-ichi", "ジュンイチ"),
  ("junichiro", "ジュンイチロウ"),
  ("junji", "ジュンジ"),
  ("junjiro", "ジュンジロウ"),
  ("junki", "ジュンキ"),
  ("junko", "ジュンコ"),
  ("junya", "ジュンヤ"),
  ("juri", "ジュリ"),
  ("jyunki", "ユンキ"),
  ("kaho", "カホ"),
  ("kahori", "カホリ"),
  ("kai", "カイ"),
  ("kaihara", "カイハラ"),
  ("kaito", "カイト"),
  ("kakuya", "カクヤ"),
  ("kan", "カン"),
  ("kana", "カナ"),
  ("kanae", "カナエ"),
  ("kanako", "カナコ"),
  ("kaneto", "カネト"),
  ("kanichi", "カンイチ"),
  ("kanta", "カンタ"),
  ("kantaro", "カンタロウ"),
  ("kaori", "カオリ"),
  ("kaoru", "カオル"),
  ("kasumi", "カスミ"),
  ("katsuaki", "カツアキ"),
  ("katsuhiko", "カツヒコ"),
  ("katsuhiro", "カツヒロ"),
  ("katsuhisa", "カツヒサ"),
  ("katsuhito", "カツヒト"),
  ("katsuji", "カツジ"),
  ("katsuki", "カツキ"),
  ("katsuko", "カツコ"),
  ("katsumi", "カツミ"),
  ("katsunori", "カツノリ"),
  ("katsuomi", "カツオミ"),
  ("katsuro", "カツロウ"),
  ("katsushi", "カツシ"),
  ("katsutaka", "カツタカ"),
  ("katsutoshi", "カツトシ"),
  ("katsuya", "カツヤ"),
  ("katsuyoshi", "カツヨシ"),
  ("katsuyuki", "カツユキ"),
  ("kawai", "カワイ"),
  ("kayo", "カヨ"),
  ("kazuaki", "カズアキ"),
  ("kazufumi", "カズフミ"),
  ("kazuhide", "カズヒデ"),
  ("kazuhiko", "カズヒコ"),
  ("kazuhiro", "カズヒロ"),
  ("kazuhisa", "カズヒサ"),
  ("kazuho", "カズホ"),
  ("kazuki", "カズキ"),
  ("kazuma", "カズマ"),
  ("kazumasa", "カズマサ"),
  ("kazumaza", "カズマザ"),
  ("kazumi", "カズミ"),
  ("kazumiki", "カズミキ"),
  ("kazunari", "カズナリ"),
  ("kazunori", "カズノリ"),
  ("kazuo", "カズオ"),
  ("kazuoki", "カズオキ"),
  ("kazuomi", "カズオミ"),
  ("kazushi", "カズシ"),
  ("kazushige", "カズシゲ"),
  ("kazutaka", "カズタカ"),
  ("kazuteru", "カズテル"),
  ("kazuto", "カズト"),
  ("kazutoshi", "カズトシ"),
  ("kazuya", "カズヤ"),
  ("kazuyasu", "カズヤス"),
  ("kazuyoshi", "カズヨシ"),
  ("kazuyuki", "カズユキ"),
  ("kei", "ケイ"),
  ("keigo", "ケイゴ"),
  ("keiichi", "ケイイチ"),
  ("keiichiro", "ケイイチロウ"),
  ("keiji", "ケイジ"),
  ("keijiro", "ケイジロウ"),
  ("keiki", "ケイキ"),
  ("keiko", "ケイコ"),
  ("keishi", "ケイシ"),
  ("keisuke", "ケイスケ"),
  ("keita", "ケイタ"),
  ("keizo", "ケイゾ"),
  ("ken", "ケン"),
  ("kengo", "ケンゴ"),
  ("kenichi", "ケンイチ"),
  ("ken-ichi", "ケンイチ"),
  ("kenichiro", "ケンイチロウ"),
  ("ken-ichiro", "ケンイチロウ"),
  ("kenji", "ケンジ"),
  ("kensaku", "ケンサク"),
  ("kenshi", "ケンシ"),
  ("kensho", "ケンショウ"),
  ("kensuke", "ケンスケ"),
  ("kenta", "ケンタ"),
  ("kentaro", "ケンタロウ"),
  ("kento", "ケント"),
  ("kenya", "ケンヤ"),
  ("kenzo", "ケンゾウ"),
  ("kikuo", "キクオ"),
  ("kimiaki", "キミアキ"),
  ("kiminori", "キミノリ"),
  ("kimito", "キミト"),
  ("kimitoshi", "キミトシ"),
  ("kinya", "キンヤ"),
  ("kinzo", "キンゾウ"),
  ("kisaki", "キサキ"),
  ("kiu", "キウ"),
  ("kiwamu", "キワム"),
  ("kiyohide", "キヨヒデ"),
  ("kiyohisa", "キヨヒサ"),
  ("kiyokazu", "キヨカズ"),
  ("kiyoko", "キヨコ"),
  ("kiyomitsu", "キヨミツ"),
  ("kiyoshi", "キヨシ"),
  ("kiyota", "キヨタ"),
  ("kiyotaka", "キヨタカ"),
  ("kiyotomi", "キヨトミ"),
  ("kiyotoshi", "キヨトシ"),
  ("ko", "コウ"),
  ("kodai", "コウダイ"),
  ("koh", "コウ"),
  ("kohei", "コウヘイ"),
  ("kohki", "コウキ"),
  ("koichi", "コウイチ"),
  ("koichiro", "コウイチロウ"),
  ("koji", "コウジ"),
  ("koki", "コウキ"),
  ("konosuke", "コウノスケ"),
  ("korehito", "コレヒト"),
  ("kosei", "コウセイ"),
  ("koshi", "コウシ"),
  ("koshiro", "コウシロウ"),
  ("kosuke", "コウスケ"),
  ("kota", "コウタ"),
  ("kotaro", "コウタロウ"),
  ("koto", "コト"),
  ("kou", "コウ"),
  ("koudai", "コウダイ"),
  ("kouhei", "コウヘイ"),
  ("kouichi", "コウイチ"),
  ("kouji", "コウジ"),
  ("kouki", "コウキ"),
  ("kousuke", "コウスケ"),
  ("kouya", "コウヤ"),
  ("koya", "コウヤ"),
  ("koyama", "コヤマ"),
  ("kozo", "コウゾウ"),
  ("kumiko", "クミコ"),
  ("kuniaki", "クニアキ"),
  ("kunihiko", "クニヒコ"),
  ("kunihiro", "クニヒロ"),
  ("kunimitsu", "クニミツ"),
  ("kuninobu", "クニノブ"),
  ("kunio", "クニオ"),
  ("kuniya", "クニヤ"),
  ("kuniyasu", "クニヤス"),
  ("kuniyoshi", "クニヨシ"),
  ("kuniyuki", "クニユキ"),
  ("kurara", "クララ"),
  ("kuya", "クウヤ"),
  ("kyo", "キョウ"),
  ("kyohei", "キョウヘイ"),
  ("kyoichi", "キョウイチ"),
  ("kyoji", "キョウジ"),
  ("kyoko", "キョウコ"),
  ("machiko", "マチコ"),
  ("madoka", "マドカ"),
  ("mafumi", "マフミ"),
  ("mai", "マイ"),
  ("maiko", "マイコ"),
  ("maki", "マキ"),
  ("makiko", "マキコ"),
  ("makio", "マキオ"),
  ("makishi", "マキシ"),
  ("makoto", "マコト"),
  ("mamoru", "マモル"),
  ("mana", "マナ"),
  ("manabu", "マナブ"),
  ("manami", "マナミ"),
  ("mao", "マオ"),
  ("maoto", "マオト"),
  ("mareka", "マレカ"),
  ("marenao", "マレナオ"),
  ("mari", "マリ"),
  ("mariko", "マリコ"),
  ("marina", "マリナ"),
  ("marohito", "マロヒト"),
  ("masaaki", "マサアキ"),
  ("masafumi", "マサフミ"),
  ("masaharu", "マサハル"),
  ("masahide", "マサヒデ"),
  ("masahiko", "マサヒコ"),
  ("masahiro", "マサヒロ"),
  ("masahisa", "マサヒサ"),
  ("masahito", "マサヒト"),
  ("masakatsu", "マサカツ"),
  ("masakazu", "マサカズ"),
  ("masaki", "マサキ"),
  ("masakiyo", "マサキヨ"),
  ("masako", "マサコ"),
  ("masami", "マサミ"),
  ("masamichi", "マサミチ"),
  ("masamitsu", "マサミツ"),
  ("masanaga", "マサナガ"),
  ("masanao", "マサナオ"),
  ("masanari", "マサナリ"),
  ("masanobu", "マサノブ"),
  ("masanori", "マサノリ"),
  ("masao", "マサオ"),
  ("masaoki", "マサオキ"),
  ("masaomi", "マサオミ"),
  ("masaru", "マサル"),
  ("masashi", "マサシ"),
  ("masashiro", "マサシロ"),
  ("masataka", "マサタカ"),
  ("masatake", "マサタケ"),
  ("masateru", "マサテル"),
  ("masato", "マサト"),
  ("masatoshi", "マサトシ"),
  ("masatsugu", "マサツグ"),
  ("masaya", "マサヤ"),
  ("masayasu", "マサヤス"),
  ("masayoshi", "マサヨシ"),
  ("masayuki", "マサユキ"),
  ("mashio", "マシオ"),
  ("maya", "マヤ"),
  ("mayu", "マユ"),
  ("mayuko", "マユコ"),
  ("megumi", "メグミ"),
  ("mei", "メイ"),
  ("michiaki", "ミチアキ"),
  ("michifumi", "ミチフミ"),
  ("michihiko", "ミチヒコ"),
  ("michihiro", "ミチヒロ"),
  ("michihito", "ミチヒト"),
  ("michika", "ミチカ"),
  ("michikazu", "ミチカズ"),
  ("michiko", "ミチコ"),
  ("michinari", "ミチナリ"),
  ("michinobu", "ミチノブ"),
  ("michio", "ミチオ"),
  ("michiro", "ミチロウ"),
  ("michiya", "ミチヤ"),
  ("michiyo", "ミチヨ"),
  ("migaku", "ミガク"),
  ("miho", "ミホ"),
  ("mikako", "ミカコ"),
  ("mike", "マイク"),
  ("miki", "ミキ"),
  ("mikihiro", "ミキヒロ"),
  ("mikihito", "ミキヒト"),
  ("mikiko", "ミキコ"),
  ("mikio", "ミキオ"),
  ("mikizo", "ミキゾウ"),
  ("minako", "ミナコ"),
  ("minami", "ミナミ"),
  ("minao", "ミナオ"),
  ("minori", "ミノリ"),
  ("minoru", "ミノル"),
  ("mio", "ミオ"),
  ("mirei", "ミレイ"),
  ("miri", "ミリ"),
  ("misa", "ミサ"),
  ("misaki", "ミサキ"),
  ("misato", "ミサト"),
  ("mistuhiko", "ミトゥヒコ"),
  ("mitsuaki", "ミツアキ"),
  ("mitsuhiko", "ミツヒコ"),
  ("mitsuhiro", "ミツヒロ"),
  ("mitsukuni", "ミツクニ"),
  ("mitsumasa", "ミツマサ"),
  ("mitsunori", "ミツノリ"),
  ("mitsuo", "ミツオ"),
  ("mitsuru", "ミツル"),
  ("mitsutaka", "ミツタカ"),
  ("mitsutoshi", "ミツトシ"),
  ("mitsuya", "ミツヤ"),
  ("mitsuyoshi", "ミツヨシ"),
  ("miwa", "ミワ"),
  ("mizuhiko", "ミズヒコ"),
  ("mizuho", "ミズホ"),
  ("mizuki", "ミズキ"),
  ("moeko", "モエコ"),
  ("momo", "モモ"),
  ("moriaki", "モリアキ"),
  ("morihiko", "モリヒコ"),
  ("morimasa", "モリマサ"),
  ("morio", "モリオ"),
  ("motoaki", "モトアキ"),
  ("motoharu", "モトハル"),
  ("motohiro", "モトヒロ"),
  ("motoki", "モトキ"),
  ("motomu", "モトム"),
  ("motoshi", "モトシ"),
  ("motosu", "モトス"),
  ("mototsugu", "モトツグ"),
  ("motoyoshi", "モトヨシ"),
  ("munehiro", "ムネヒロ"),
  ("munenori", "ムネノリ"),
  ("munetaka", "ムネタカ"),
  ("mustumi", "ムツミ"),
  ("mutsumi", "ムツミ"),
  ("mutsuo", "ムツオ"),
  ("myong", "ミョン"),
  ("nagataka", "ナガタカ"),
  ("nagi", "ナギ"),
  ("namio", "ナミオ"),
  ("nana", "ナナ"),
  ("nao", "ナオ"),
  ("naoaki", "ナオアキ"),
  ("naoei", "ナオエイ"),
  ("naofumi", "ナオフミ"),
  ("naohiko", "ナオヒコ"),
  ("naohiro", "ナオヒロ"),
  ("naohisa", "ナオヒサ"),
  ("naohito", "ナオヒト"),
  ("naoki", "ナオキ"),
  ("naoko", "ナオコ"),
  ("naomi", "ナオミ"),
  ("naomichi", "ナオミチ"),
  ("naonori", "ナオノリ"),
  ("naotaka", "ナオタカ"),
  ("naotake", "ナオタケ"),
  ("naoto", "ナオト"),
  ("naotoshi", "ナオトシ"),
  ("naoya", "ナオヤ"),
  ("naoyuki", "ナオユキ"),
  ("naritsugu", "ナリツグ"),
  ("naruhiko", "ナルヒコ"),
  ("narumi", "ナルミ"),
  ("natsuhiko", "ナツヒコ"),
  ("natsuhiro", "ナツヒロ"),
  ("natsuko", "ナツコ"),
  ("natsumi", "ナツミ"),
  ("natsuya", "ナツヤ"),
  ("nehiro", "ネヒロ"),
  ("neiko", "ネイコ"),
  ("nobu", "ノブ"),
  ("nobuaki", "ノブアキ"),
  ("nobuhide", "ノブヒデ"),
  ("nobuhiko", "ノブヒコ"),
  ("nobuhiro", "ノブヒロ"),
  ("nobuhisa", "ノブヒサ"),
  ("nobuhito", "ノブヒト"),
  ("nobuki", "ノブキ"),
  ("nobunari", "ノブナリ"),
  ("nobuo", "ノブオ"),
  ("nobushige", "ノブシゲ"),
  ("nobutaka", "ノブタカ"),
  ("nobuyasu", "ノブヤス"),
  ("nobuyuki", "ノブユキ"),
  ("noriaki", "ノリアキ"),
  ("norifumi", "ノリフミ"),
  ("norihiko", "ノリヒコ"),
  ("norihiro", "ノリヒロ"),
  ("norihisa", "ノリヒサ"),
  ("norihito", "ノリヒト"),
  ("norikazu", "ノリカズ"),
  ("noriko", "ノリコ"),
  ("norimasa", "ノリマサ"),
  ("norimichi", "ノリミチ"),
  ("norio", "ノリオ"),
  ("noritaka", "ノリタカ"),
  ("noritomo", "ノリトモ"),
  ("noritoshi", "ノリトシ"),
  ("noriya", "ノリヤ"),
  ("noriyasu", "ノリヤス"),
  ("noriyoshi", "ノリヨシ"),
  ("noriyuki", "ノリユキ"),
  ("nozomi", "ノゾミ"),
  ("nozomu", "ノゾム"),
  ("onichi", "オンイチ"),
  ("osamu", "オサム"),
  ("otohime", "オトヒメ"),
  ("raisuke", "ライスケ"),
  ("raita", "ライタ"),
  ("ran", "ラン"),
  ("reiji", "レイジ"),
  ("reiko", "レイコ"),
  ("reina", "レイナ"),
  ("ren", "レン"),
  ("rensuke", "レンスケ"),
  ("reo", "レオ"),
  ("rie", "リエ"),
  ("rihito", "リヒト"),
  ("rika", "リカ"),
  ("riku", "リク"),
  ("rikuo", "リクオ"),
  ("rikuta", "リクタ"),
  ("rikuya", "リクヤ"),
  ("rin", "リン"),
  ("rine", "リネ"),
  ("rintaro", "リンタロウ"),
  ("rishi", "リシ"),
  ("rissei", "リッセイ"),
  ("ruiko", "ルイコ"),
  ("ruka", "ルカ"),
  ("ryo", "リョウ"),
  ("ryohei", "リョウヘイ"),
  ("ryoichi", "リョウイチ"),
  ("ryoji", "リョウジ"),
  ("ryoko", "リョウコ"),
  ("ryoma", "リョウマ"),
  ("ryosuke", "リョウスケ"),
  ("ryota", "リョウタ"),
  ("ryotaro", "リョウタロウ"),
  ("ryou", "リョウ"),
  ("ryouhei", "リョウヘイ"),
  ("ryousuke", "リョウスケ"),
  ("ryozo", "リョウゾウ"),
  ("ryu", "リュウ"),
  ("ryuhei", "リュヘイ"),
  ("ryuichi", "リュウイチ"),
  ("ryuichiro", "リュウイチロウ"),
  ("ryu-ichiro", "リュウイチロウ"),
  ("ryuji", "リュウジ"),
  ("ryuki", "リュウキ"),
  ("ryusuke", "リュウスケ"),
  ("ryutaro", "リュウタロウ"),
  ("ryuusuke", "リュウスケ"),
  ("ryuzaburo", "リュウザブロウ"),
  ("ryuzo", "リュウゾウ"),
  ("saburo", "サブロウ"),
  ("sachiko", "サチコ"),
  ("sachiro", "サチロ"),
  ("sadaharu", "サダハル"),
  ("sadako", "サダコ"),
  ("sadanori", "サダノリ"),
  ("saeko", "サエコ"),
  ("saiko", "サイコ"),
  ("sakae", "サカエ"),
  ("saki", "サキ"),
  ("sakiko", "サキコ"),
  ("sakura", "サクラ"),
  ("sakuramaru", "サクラマル"),
  ("sanae", "サナエ"),
  ("saori", "サオリ"),
  ("sara", "サラ"),
  ("satoaki", "サトアキ"),
  ("satoki", "サトキ"),
  ("satoko", "サトコ"),
  ("satomi", "サトミ"),
  ("satori", "サトリ"),
  ("satoru", "サトル"),
  ("satoshi", "サトシ"),
  ("satsuki", "サツキ"),
  ("saya", "サヤ"),
  ("sayaka", "サヤカ"),
  ("sayano", "サヤノ"),
  ("sayumi", "サユミ"),
  ("sei", "セイ"),
  ("seigo", "セイゴ"),
  ("seiichi", "セイイチ"),
  ("seiichiro", "セイイチロウ"),
  ("seiji", "セイジ"),
  ("seijiro", "セイジロウ"),
  ("seita", "セイタ"),
  ("seitaro", "セイタロウ"),
  ("seiya", "セイヤ"),
  ("setsu", "セツ"),
  ("setsuyuki", "セツユキ"),
  ("shigehiko", "シゲヒコ"),
  ("shigehiro", "シゲヒロ"),
  ("shigeki", "シゲキ"),
  ("shigemitsu", "シゲミツ"),
  ("shigenobu", "シゲノブ"),
  ("shigenori", "シゲノリ"),
  ("shigeo", "シゲオ"),
  ("shigeomi", "シゲオミ"),
  ("shigeru", "シゲル"),
  ("shigeshi", "シゲシ"),
  ("shigetaka", "シゲタカ"),
  ("shigeto", "シゲト"),
  ("shigetoshi", "シゲトシ"),
  ("shigeyasu", "シゲヤス"),
  ("shigeyoshi", "シゲヨシ"),
  ("shiho", "シホ"),
  ("shihoko", "シホコ"),
  ("shimpei", "シンペイ"),
  ("shin", "シン"),
  ("shingo", "シンゴ"),
  ("shinichi", "シンイチ"),
  ("shinichiro", "シンイチロウ"),
  ("shin-ichiro", "シンイチロウ"),
  ("shinji", "シンジ"),
  ("shinjo", "シンジョウ"),
  ("shinnosuke", "シンノスケ"),
  ("shinrou", "シンロウ"),
  ("shinsuke", "シンスケ"),
  ("shinta", "シンタ"),
  ("shintaro", "シンタロウ"),
  ("shinya", "シンヤ"),
  ("shiori", "シオリ"),
  ("shiro", "シロウ"),
  ("shirou", "シロウ"),
  ("sho", "ショウ"),
  ("shodai", "ショウダイ"),
  ("shogo", "ショウゴ"),
  ("shohei", "ショウヘイ"),
  ("shoichi", "ショウイチ"),
  ("sho-ichi", "ショウイチ"),
  ("shoichiro", "ショウイチロウ"),
  ("shoji", "ショウジ"),
  ("shojiro", "ショウジロウ"),
  ("shoko", "ショウコ"),
  ("shota", "ショウタ"),
  ("shotaro", "ショウタロウ"),
  ("shozo", "ショウゾウ"),
  ("shu", "シュウ"),
  ("shuhei", "シュウヘイ"),
  ("shuichi", "シュウイチ"),
  ("shu-ichi", "シュウイチ"),
  ("shuichiro", "シュウイチロウ"),
  ("shuji", "シュウジ"),
  ("shujiro", "シュウジロウ"),
  ("shuko", "シュウコ"),
  ("shumpei", "シュンペイ"),
  ("shun", "シュン"),
  ("shunbun", "シュンブン"),
  ("shungo", "シュンゴ"),
  ("shunich", "シュンイチ"),
  ("shunichi", "シュンイチ"),
  ("shunichiro", "シュンイチロウ"),
  ("shunji", "シュンジ"),
  ("shunsuke", "シュンスケ"),
  ("shunta", "シュンタ"),
  ("shuntaro", "シュンタロウ"),
  ("shunya", "シュンヤ"),
  ("shuro", "シュウロウ"),
  ("shusaku", "シュウサク"),
  ("shusuke", "シュウスケ"),
  ("shuta", "シュウタ"),
  ("so", "ソウ"),
  ("sohsuke", "ソウスケ"),
  ("soichi", "ソウイチ"),
  ("soichiro", "ソウイチロウ"),
  ("soken", "ソケン"),
  ("sonoka", "ソノカ"),
  ("soshi", "ソシ"),
  ("soshiro", "ソウシロウ"),
  ("sota", "ソウタ"),
  ("sou", "ソウ"),
  ("suga", "スガ"),
  ("suguru", "スグル"),
  ("sumio", "スミオ"),
  ("sunao", "スナオ"),
  ("susumu", "ススム"),
  ("suwako", "スワコ"),
  ("suzu", "スズ"),
  ("syotaro", "ショウタロウ"),
  ("syuntaro", "シュンタロウ"),
  ("tadaaki", "タダアキ"),
  ("tadahiro", "タダヒロ"),
  ("tadakazu", "タダカズ"),
  ("tadao", "タダオ"),
  ("tadashi", "タダシ"),
  ("tadateru", "タダテル"),
  ("tadayuki", "タダユキ"),
  ("taeko", "タエコ"),
  ("taichi", "タイチ"),
  ("taiji", "タイジ"),
  ("taikan", "タイカン"),
  ("taiki", "タイキ"),
  ("tairo", "タイロウ"),
  ("taishi", "タイシ"),
  ("taisuke", "タイスケ"),
  ("taito", "タイト"),
  ("taiyo", "タイヨウ"),
  ("taizo", "タイゾウ"),
  ("takaaki", "タカアキ"),
  ("taka-aki", "タカアキ"),
  ("takafumi", "タカフミ"),
  ("takaharu", "タカハル"),
  ("takahide", "タカヒデ"),
  ("takahiko", "タカヒコ"),
  ("takahiro", "タカヒロ"),
  ("takahisa", "タカヒサ"),
  ("takahito", "タカヒト"),
  ("takaki", "タカアキ"),
  ("takako", "タカコ"),
  ("takamasa", "タカマサ"),
  ("takamitsu", "タカミツ"),
  ("takanari", "タカナリ"),
  ("takanobu", "タカノブ"),
  ("takanori", "タカノリ"),
  ("takao", "タカオ"),
  ("takashi", "タカシ"),
  ("takashige", "タカシゲ"),
  ("takatomo", "タカトモ"),
  ("takatoshi", "タカトシ"),
  ("takatoyo", "タカトヨ"),
  ("takayo", "タカヨ"),
  ("takayoshi", "タカヨシ"),
  ("takayuki", "タカユキ"),
  ("takeaki", "タケアキ"),
  ("takefumi", "タケフミ"),
  ("takehiko", "タケヒコ"),
  ("takehiro", "タケヒロ"),
  ("takenao", "タケナオ"),
  ("takenobu", "タケノブ"),
  ("takenori", "タケノリ"),
  ("takeo", "タケオ"),
  ("takeru", "タケル"),
  ("takeshi", "タケシ"),
  ("takeshige", "タケシゲ"),
  ("taketo", "タケト"),
  ("taketoshi", "タケトシ"),
  ("takeyoshi", "タケヨシ"),
  ("takeyuki", "タケユキ"),
  ("taku", "タク"),
  ("takuji", "タクジ"),
  ("takuma", "タクマ"),
  ("takumi", "タクミ"),
  ("takunori", "タクノリ"),
  ("takuo", "タクオ"),
  ("takuro", "タクロウ"),
  ("takuto", "タクト"),
  ("takuya", "タクヤ"),
  ("tamahiro", "タマヒロ"),
  ("tamaki", "タマキ"),
  ("tamiko", "タミコ"),
  ("tamio", "タミオ"),
  ("tamiyuki", "タミユキ"),
  ("tamon", "タモン"),
  ("taro", "タロウ"),
  ("tasuku", "タスク"),
  ("tatsuhiko", "タツヒコ"),
  ("tatsuhiro", "タツヒロ"),
  ("tatsuhisa", "タツヒサ"),
  ("tatsuji", "タツジ"),
  ("tatsuki", "タツキ"),
  ("tatsunori", "タツノリ"),
  ("tatsuo", "タツオ"),
  ("tatsuro", "タツロウ"),
  ("tatsushi", "タツシ"),
  ("tatsuto", "タツト"),
  ("tatsuya", "タツヤ"),
  ("teisuke", "テイスケ"),
  ("tenjin", "テンジン"),
  ("teruaki", "テルアキ"),
  ("teruhiko", "テルヒコ"),
  ("teruhiro", "テルヒロ"),
  ("teruki", "テルキ"),
  ("terumasa", "テルマサ"),
  ("terumitsu", "テルミツ"),
  ("terumori", "テルモリ"),
  ("terumoto", "テルモト"),
  ("teruo", "テルオ"),
  ("teruyasu", "テルヤス"),
  ("teruyoshi", "テルヨシ"),
  ("tetsu", "テツ"),
  ("tetsuharu", "テツハル"),
  ("tetsuhiro", "テツヒロ"),
  ("tetsuhisa", "テツヒサ"),
  ("tetsuichi", "テツイチ"),
  ("tetsuji", "テツジ"),
  ("tetsuo", "テツオ"),
  ("tetsuro", "テツロウ"),
  ("tetsuya", "テツヤ"),
  ("tetsuzo", "テツゾウ"),
  ("tohru", "トオル"),
  ("tokuhiro", "トクヒロ"),
  ("tokutada", "トクタダ"),
  ("tomiharu", "トミハル"),
  ("tomihisa", "トミヒサ"),
  ("tomo", "トモ"),
  ("tomoaki", "トモアキ"),
  ("tomofumi", "トモフミ"),
  ("tomoharu", "トモハル"),
  ("tomohiko", "トモヒコ"),
  ("tomohiro", "トモヒロ"),
  ("tomohisa", "トモヒサ"),
  ("tomokazu", "トモカズ"),
  ("tomoki", "トモキ"),
  ("tomoko", "トモコ"),
  ("tomomi", "トモミ"),
  ("tomonori", "トモノリ"),
  ("tomoo", "トモオ"),
  ("tomotaka", "トモタカ"),
  ("tomotsugu", "トモツグ"),
  ("tomoya", "トモヤ"),
  ("tomoyo", "トモヨ"),
  ("tomoyuki", "トモユキ"),
  ("toraaki", "トラアキ"),
  ("toru", "トオル"),
  ("toshi", "トシ"),
  ("toshiaki", "トシアキ"),
  ("toshifumi", "トシフミ"),
  ("toshiharu", "トシハル"),
  ("toshihide", "トシヒデ"),
  ("toshihiko", "トシヒコ"),
  ("toshihiro", "トシヒロ"),
  ("toshihisa", "トシヒサ"),
  ("toshikazu", "トシカズ"),
  ("toshiki", "トシキ"),
  ("toshiko", "トシコ"),
  ("toshimasa", "トシマサ"),
  ("toshimitsu", "トシミツ"),
  ("toshio", "トシオ"),
  ("toshiro", "トシロウ"),
  ("toshitaka", "トシタカ"),
  ("toshiya", "トシヤ"),
  ("toshiyuki", "トシユキ"),
  ("toyoaki", "トヨアキ"),
  ("toyoki", "トヨキ"),
  ("tsugumi", "ツグミ"),
  ("tsukasa", "ツカサ"),
  ("tsunekazu", "ツネカズ"),
  ("tsuneki", "ツネキ"),
  ("tsunenari", "ツネナリ"),
  ("tsuneo", "ツネオ"),
  ("tsunetatsu", "ツネタツ"),
  ("tsutomu", "ツトム"),
  ("tsuyoshi", "ツヨシ"),
  ("uichi", "ウイチ"),
  ("umihiko", "ウミヒコ"),
  ("wakana", "ワカナ"),
  ("wakaya", "ワカヤ"),
  ("wataru", "ワタル"),
  ("yae", "ヤエ"),
  ("yamato", "ヤマト"),
  ("yasuaki", "ヤスアキ"),
  ("yasuchika", "ヤスチカ"),
  ("yasufumi", "ヤスフミ"),
  ("yasuharu", "ヤスハル"),
  ("yasuhide", "ヤスヒデ"),
  ("yasuhiko", "ヤスヒコ"),
  ("yasuhiro", "ヤスヒロ"),
  ("yasuhisa", "ヤスヒサ"),
  ("yasuhito", "ヤスヒト"),
  ("yasuki", "ヤスキ"),
  ("yasuko", "ヤスコ"),
  ("yasumasa", "ヤスマサ"),
  ("yasumi", "ヤスミ"),
  ("yasunari", "ヤスナリ"),
  ("yasunobu", "ヤスノブ"),
  ("yasunori", "ヤスノリ"),
  ("yasuo", "ヤスオ"),
  ("yasuomi", "ヤスオミ"),
  ("yasushi", "ヤスシ"),
  ("yasutaka", "ヤスタカ"),
  ("yasutomi", "ヤストミ"),
  ("yasutomo", "ヤストモ"),
  ("yasutoshi", "ヤストシ"),
  ("yasutsugu", "ヤスツグ"),
  ("yasuya", "ヤスヤ"),
  ("yasuyo", "ヤスヨ"),
  ("yasuyuki", "ヤスユキ"),
  ("yayoi", "ヤヨイ"),
  ("yo", "ヨウ"),
  ("yodo", "ヨウドウ"),
  ("yohei", "ヨウヘイ"),
  ("yohsuke", "ヨウスケ"),
  ("yoichi", "ヨウイチ"),
  ("yoichiro", "ヨウイチロウ"),
  ("yoji", "ヨウジ"),
  ("yoko", "ヨウコ"),
  ("yoku", "ヨク"),
  ("yorihiko", "ヨリヒコ"),
  ("yoritaka", "ヨリタカ"),
  ("yoriyasu", "ヨリヤス"),
  ("yoshiaki", "ヨシアキ"),
  ("yoshifumi", "ヨシフミ"),
  ("yoshifusa", "ヨシフサ"),
  ("yoshiharu", "ヨシハル"),
  ("yoshihide", "ヨシヒデ"),
  ("yoshihiko", "ヨシヒコ"),
  ("yoshihiro", "ヨシヒロ"),
  ("yoshihisa", "ヨシヒサ"),
  ("yoshihito", "ヨシヒト"),
  ("yoshikazu", "ヨシカズ"),
  ("yoshiki", "ヨシキ"),
  ("yoshiko", "ヨシコ"),
  ("yoshimasa", "ヨシマサ"),
  ("yoshimi", "ヨシミ"),
  ("yoshimitsu", "ヨシミツ"),
  ("yoshinari", "ヨシナリ"),
  ("yoshinobu", "ヨシノブ"),
  ("yoshinori", "ヨシノリ"),
  ("yoshio", "ヨシオ"),
  ("yoshiro", "ヨシロウ"),
  ("yoshisato", "ヨシサト"),
  ("yoshisuke", "ヨシスケ"),
  ("yoshitaka", "ヨシタカ"),
  ("yoshitake", "ヨシタケ"),
  ("yoshiteru", "ヨシテル"),
  ("yoshito", "ヨシト"),
  ("yoshitsugu", "ヨシツグ"),
  ("yoshiya", "ヨシヤ"),
  ("yoshiyasu", "ヨシヤス"),
  ("yoshiyuki", "ヨシユキ"),
  ("yosuke", "ヨウスケ"),
  ("yota", "ヨウタ"),
  ("youichi", "ヨウイチ"),
  ("yousuke", "ヨウスケ"),
  ("yu", "ユウ"),
  ("yudai", "ユウダイ"),
  ("yuetsu", "ユウエツ"),
  ("yugo", "ユウゴ"),
  ("yuhei", "ユウヘイ"),
  ("yui", "ユイ"),
  ("yuichi", "ユウイチ"),
  ("yuichiro", "ユウイチロウ"),
  ("yuichirou", "ユウイチロウ"),
  ("yuji", "ユウジ"),
  ("yujiro", "ユウジロウ"),
  ("yu-ki", "ユウキ"),
  ("yuki", "ユキ"),
  ("yukichi", "ユキチ"),
  ("yukie", "ユキエ"),
  ("yukihiko", "ユキヒコ"),
  ("yukihiro", "ユキヒロ"),
  ("yukihito", "ユキヒト"),
  ("yukiko", "ユキコ"),
  ("yukinori", "ユキノリ"),
  ("yukio", "ユキオ"),
  ("yuko", "ユウコ"),
  ("yuma", "ユウマ"),
  ("yumi", "ユミ"),
  ("yumika", "ユミカ"),
  ("yumiko", "ユミコ"),
  ("yunosuke", "ユウノスケ"),
  ("yuriko", "ユリコ"),
  ("yusaku", "ユウサク"),
  ("yushi", "ユウシ"),
  ("yusuke", "ユウスケ"),
  ("yuta", "ユウタ"),
  ("yutaka", "ユタカ"),
  ("yutaro", "ユウタロウ"),
  ("yuto", "ユウト"),
  ("yuuki", "ユウキ"),
  ("yuusuke", "ユウスケ"),
  ("yuya", "ユウヤ"),
  ("yuzo", "ユウゾウ"),
  ("zenichi", "ゼンイチ")
]

/-- The vowel-only / silent-drop tail of a loop iteration: if the current
character is a vowel, emit `BASE.get(s[i], "")` and advance 1; otherwise
emit nothing and advance 1 (unmatched characters are dropped silently). -/
def vowelOrDrop (c : Char) : List String × Nat :=
  if VOWELS.contains c then ([(pyDictGetC BASE [c]).getD ""], 1) else ([], 1)

/-- Fallback inside the `'n'` branch, reached when the `n`+vowel lookup did
not produce a (truthy) syllable: `ニ` before `y` advancing 1, otherwise the
standalone `ン` advancing 1. -/
def nStep2 (rest : List Char) : List String × Nat :=
  match rest with
  | c2 :: _ => if c2 == 'y' then (["ニ"], 1) else (["ン"], 1)
  | [] => (["ン"], 1)

/-- The `'n'` branch of the loop: an `n`+vowel pair is looked up in `BASE`
(na/ni/nu/ne/no) and advances 2; otherwise fall back to `nStep2`. -/
def nStep (rest : List Char) : List String × Nat :=
  match rest with
  | c2 :: _ =>
    if (['a', 'i', 'u', 'e', 'o'] : List Char).contains c2 then
      match pyDictGetC BASE ['n', c2] with
      | some k => if k == "" then nStep2 rest else ([k], 2)
      | none => nStep2 rest
    else nStep2 rest
  | [] => (["ン"], 1)

/-- The generic consonant+vowel branch: key `("r" if s[i] == "l" else s[i]) +
s[i+1]` looked up in `BASE`, advancing 2 on a (truthy) hit, otherwise
falling through to `vowelOrDrop`. -/
def cvStep (c : Char) (rest : List Char) : List String × Nat :=
  match rest with
  | c2 :: _ =>
    if !(VOWELS.contains c) && VOWELS.contains c2 then
      match pyDictGetC BASE [(if c == 'l' then 'r' else c), c2] with
      | some k => if k == "" then vowelOrDrop c else ([k], 2)
      | none => vowelOrDrop c
    else vowelOrDrop c
  | [] => vowelOrDrop c

/-- One iteration of the segmentation loop of `roman_to_katakana` at a
cursor whose remaining input is the argument list: returns the (possibly
empty) list of emitted katakana strings and the cursor advance.  The checks
appear in the source's order: geminate, the 3-letter cluster table
`TRI_MAP`, the irregular table `DI_MAP` with a 3- then a 2-character window,
the `'n'` branch, the generic consonant+vowel lookup, and finally the
vowel / silent-drop tail. -/
def kanaStep : List Char → List String × Nat
  | [] => ([], 1)
  | c :: rest =>
    if isGeminate c rest then (["ッ"], 1)
    else
      match pyDictGetC TRI_MAP ((c :: rest).take 3) with
      | some k => ([k], 3)
      | none =>
        match pyDictGetC DI_MAP ((c :: rest).take 3) with
        | some k => ([k], 3)
        | none =>
          match pyDictGetC DI_MAP ((c :: rest).take 2) with
          | some k => ([k], 2)
          | none =>
            if c == 'n' then nStep rest
            else cvStep c rest

/-- Fuel-bounded form of the segmentation loop of `roman_to_katakana`: one
unit of fuel per iteration, each iteration applying `kanaStep` and dropping
the consumed characters.  An advance of `a ≥ 1` from `c :: rest` leaves
`rest.drop (a - 1)`.  Fuel `l.length` is always enough because every
iteration consumes at least one character; this is proved below
(`kanaLoopF_length_eq_some` / `kanaLoop_cons`), making `kanaLoop` the exact
semantics of the source's `while` loop. -/
def kanaLoopF : Nat → List Char → Option (List String)
  | _, [] => some []
  | 0, _ :: _ => none
  | n + 1, c :: rest =>
    let s := kanaStep (c :: rest)
    (kanaLoopF n (rest.drop (s.2 - 1))).map (fun t => s.1 ++ t)

/-- The segmentation loop of `roman_to_katakana`. -/
def kanaLoop (l : List Char) : List String :=
  (kanaLoopF l.length l).getD []

/-- Python `re.sub(r"オウウ", "オウ", kat)`: left-to-right, non-overlapping. -/
def ouuSub : List Char → List Char
  | [] => []
  | [c] => [c]
  | [c, c2] => [c, c2]
  | c :: c2 :: c3 :: t =>
    if c == 'オ' && c2 == 'ウ' && c3 == 'ウ' then
      'オ' :: 'ウ' :: ouuSub t
    else c :: ouuSub (c2 :: c3 :: t)

/-- The preprocessing pipeline of `roman_to_katakana`, in the source's
order: lowercase, `MACRON` translation, removal of everything outside
`[a-z]`, then the `oh` → `ou` rewrite. -/
def preprocessRoman (s : String) : List Char :=
  ohSub (cleanLetters (translateMacron (s.data.map pyLower)))

/-- `roman_to_katakana(s, long_vowel)`. -/
def roman_to_katakana (s : String) (long_vowel : Bool) : String :=
  if s = "" then ""
  else
    let kat := String.join (kanaLoop (preprocessRoman s))
    if long_vowel then String.mk (ouuSub kat.data) else kat

/-- The set `LONG_O_SURNAMES` (a Python set of exact lowercase names). -/
def LONG_O_SURNAMES : List String :=
  ["saito", "saitoh", "saitou", "sato", "ando", "kondo", "endo", "shindo",
   "goto", "mitsudo", "kato", "sudo"]

/-- Python `s.endswith(t)`: `t` is a suffix of `s`.  (Stated on the
character lists so that it evaluates by reduction.) -/
def strEndsWith (s t : String) : Bool :=
  decide (s.data.drop (s.data.length - t.data.length) = t.data)

/-- `apply_surname_long_o(ln_lower, ln_kana)`. -/
def apply_surname_long_o (ln_lower ln_kana : String) : String :=
  if LONG_O_SURNAMES.contains ln_lower then
    if strEndsWith ln_lower "to" && strEndsWith ln_kana "ト" && !(strEndsWith ln_kana "トウ") then
      ln_kana ++ "ウ"
    else if strEndsWith ln_lower "do" && strEndsWith ln_kana "ド" && !(strEndsWith ln_kana "ドウ") then
      ln_kana ++ "ウ"
    else ln_kana
  else ln_kana

/-- Python `re.sub(r"ryo(?=([bcdfghjklmnpqrstvwxyz]|$))", "ryou", s)`: a
match consumes `ryo` (the lookahead is not consumed) and scanning resumes
after the consumed text. -/
def ryoSub1 : List Char → List Char
  | [] => []
  | [c] => [c]
  | [c, c2] => [c, c2]
  | c :: c2 :: c3 :: t =>
    if c == 'r' && c2 == 'y' && c3 == 'o' &&
       (match t with
        | c4 :: _ => OH_CONSONANTS.contains c4
        | [] => true) then
      'r' :: 'y' :: 'o' :: 'u' :: ryoSub1 t
    else c :: ryoSub1 (c2 :: c3 :: t)

/-- Python `re.sub(r"ryo(?=i)", "ryoui", s)`: the lookahead `i` is not
consumed, so scanning resumes at that `i`. -/
def ryoSub2 : List Char → List Char
  | [] => []
  | [c] => [c]
  | [c, c2] => [c, c2]
  | c :: c2 :: c3 :: t =>
    if c == 'r' && c2 == 'y' && c3 == 'o' &&
       (match t with
        | c4 :: _ => c4 == 'i'
        | [] => false) then
      'r' :: 'y' :: 'o' :: 'u' :: 'i' :: ryoSub2 t
    else c :: ryoSub2 (c2 :: c3 :: t)

/-- The given-name `ryo` pre-conversion heuristic of `_kana_parts`, applied
to an override-missing given name before the core converter. -/
def ryoRewrite (s : String) : String := String.mk (ryoSub2 (ryoSub1 s.data))

/-- The family-name conversion of `_kana_parts`: override lookup on the
lowercased token with Python `or` fallback to `roman_to_katakana`, then the
Long-O post-processor when `surname_long_o` is set and the token is not an
override key. -/
def kanaLastName (ln : String) (long_vowel surname_long_o : Bool) : String :=
  let ln_lower := pyLowerS ln
  let ln_kana :=
    pyOrElse (pyDictGet KATAKANA_LASTNAME_OVERRIDE ln_lower)
      (roman_to_katakana ln long_vowel)
  if surname_long_o && (pyDictGet KATAKANA_LASTNAME_OVERRIDE ln_lower).isNone then
    apply_surname_long_o ln_lower ln_kana
  else ln_kana

/-- The given-name conversion of `_kana_parts`: override lookup on the
lowercased token, otherwise the `ryo` rewrites followed by the core
converter. -/
def kanaFirstName (fn : String) (long_vowel : Bool) : String :=
  let fn_lower := pyLowerS fn
  match pyDictGet KATAKANA_FIRSTNAME_OVERRIDE fn_lower with
  | some v => v
  | none => roman_to_katakana (ryoRewrite fn_lower) long_vowel

/-- The ten keys of `KATAKANA_FIRSTNAME_OVERRIDE` that contain a character
outside `[a-z]` (all hyphenated); every other key of that dictionary is
made of lowercase ASCII letters only. -/
def HYPHEN_FIRSTNAME_KEYS : List String :=
  ["jun-ei", "jun-ichi", "ken-ichi", "ken-ichiro", "ryu-ichiro",
   "shin-ichiro", "sho-ichi", "shu-ichi", "taka-aki", "yu-ki"]

/-! ## Helper lemmas -/

theorem pyDictGetAux_mem {v : String} :
    ∀ (d : List (String × String)) (k : String) (acc : Option String),
      pyDictGetAux acc d k = some v → (k, v) ∈ d ∨ acc = some v := by
  intro d
  induction d with
  | nil => intro k acc h; exact Or.inr h
  | cons p ps ih =>
    intro k acc h
    rw [pyDictGetAux] at h
    rcases ih k _ h with hm | hacc
    · exact Or.inl (List.mem_cons_of_mem _ hm)
    · by_cases hk : p.1 = k
      · rw [if_pos hk] at hacc
        cases hacc
        subst hk
        exact Or.inl (List.mem_cons_self _ _)
      · rw [if_neg hk] at hacc
        exact Or.inr hacc

theorem pyDictGet_mem {d : List (String × String)} {k v : String}
    (h : pyDictGet d k = some v) : (k, v) ∈ d := by
  rcases pyDictGetAux_mem d k none h with hm | hacc
  · exact hm
  · cases hacc

theorem lastname_values_nonempty :
    KATAKANA_LASTNAME_OVERRIDE.all (fun p => decide (p.2 ≠ "")) = true := by rfl

theorem lastname_keys_alpha :
    KATAKANA_LASTNAME_OVERRIDE.all (fun p => p.1.data.all isAsciiLowerAlpha) = true := by rfl

theorem firstname_keys_alpha_or_hyphen :
    KATAKANA_FIRSTNAME_OVERRIDE.all
      (fun p => p.1.data.all isAsciiLowerAlpha || HYPHEN_FIRSTNAME_KEYS.contains p.1) = true := by
  rfl

theorem kanaLastName_override {ln v : String} {lv slo : Bool}
    (h : pyDictGet KATAKANA_LASTNAME_OVERRIDE (pyLowerS ln) = some v) :
    kanaLastName ln lv slo = v := by
  have hmem := pyDictGet_mem h
  have hv : v ≠ "" := by
    have := List.all_eq_true.mp lastname_values_nonempty _ hmem
    simpa using this
  simp [kanaLastName, h, pyOrElse, hv]

theorem kanaFirstName_override {fn v : String} {lv : Bool}
    (h : pyDictGet KATAKANA_FIRSTNAME_OVERRIDE (pyLowerS fn) = some v) :
    kanaFirstName fn lv = v := by
  simp [kanaFirstName, h]

/-! ## Claims -/

/-- C1: for a family-name token whose lowercased form is a key of
`KATAKANA_LASTNAME_OVERRIDE`, the produced family katakana equals the
dictionary value, for all flag settings; likewise for a given-name token and
`KATAKANA_FIRSTNAME_OVERRIDE`; in particular family `"ito"` yields `"イトウ"`
and given `"kenichi"` yields `"ケンイチ"`. -/
theorem override_precedence :
    (∀ (ln v : String) (lv slo : Bool),
        pyDictGet KATAKANA_LASTNAME_OVERRIDE (pyLowerS ln) = some v →
        kanaLastName ln lv slo = v) ∧
    (∀ (fn v : String) (lv : Bool),
        pyDictGet KATAKANA_FIRSTNAME_OVERRIDE (pyLowerS fn) = some v →
        kanaFirstName fn lv = v) ∧
    (∀ lv slo, kanaLastName "ito" lv slo = "イトウ") ∧
    (∀ lv, kanaFirstName "kenichi" lv = "ケンイチ") := by
  refine ⟨fun ln v lv slo h => kanaLastName_override h,
    fun fn v lv h => kanaFirstName_override h, fun lv slo => ?_, fun lv => ?_⟩
  · exact kanaLastName_override (v := "イトウ") (by rfl)
  · exact kanaFirstName_override (v := "ケンイチ") (by rfl)

/-- Witness for C1 at family `"ito"` and given `"kenichi"`. -/
theorem override_precedence_witness :
    kanaLastName "ito" true true = "イトウ" ∧
    kanaFirstName "kenichi" true = "ケンイチ" :=
  ⟨override_precedence.1 "ito" "イトウ" true true (by rfl),
   override_precedence.2.1 "kenichi" "ケンイチ" true (by rfl)⟩

/-- C9: a romanized key appearing twice in an override dictionary's source
with different katakana values resolves to the last-defined value:
`"gohbara"` (defined as `"ゴウハラ"`, later `"ゴオバラ"`) resolves to
`"ゴオバラ"`, and `"kozuma"` (defined as `"コウズマ"`, later `"コオズマ"`)
resolves to `"コオズマ"`. -/
theorem duplicate_key_last_wins :
    ("gohbara", "ゴウハラ") ∈ KATAKANA_LASTNAME_OVERRIDE ∧
    ("gohbara", "ゴオバラ") ∈ KATAKANA_LASTNAME_OVERRIDE ∧
    pyDictGet KATAKANA_LASTNAME_OVERRIDE "gohbara" = some "ゴオバラ" ∧
    ("kozuma", "コウズマ") ∈ KATAKANA_LASTNAME_OVERRIDE ∧
    ("kozuma", "コオズマ") ∈ KATAKANA_LASTNAME_OVERRIDE ∧
    pyDictGet KATAKANA_LASTNAME_OVERRIDE "kozuma" = some "コオズマ" ∧
    (∀ lv slo, kanaLastName "gohbara" lv slo = "ゴオバラ") ∧
    (∀ lv slo, kanaLastName "kozuma" lv slo = "コオズマ") := by
  refine ⟨by decide, by decide, by rfl, by decide, by decide, by rfl,
    fun lv slo => ?_, fun lv slo => ?_⟩
  · exact kanaLastName_override (v := "ゴオバラ") (by rfl)
  · exact kanaLastName_override (v := "コオズマ") (by rfl)

/-- C3: with `surnameLongO` enabled and the lowercased family name not an
override key, the pipeline hands the rule-converted katakana to
`apply_surname_long_o`; the post-processor appends one `"ウ"` exactly for
members of the closed Long-O set whose lowercase form ends in `"to"` and
whose katakana ends in `"ト"` but not `"トウ"` (symmetrically `"do"`/`"ド"`/
`"ドウ"`), never fires outside the closed set, and the override value wins
for `"saito"` under both flag values. -/
theorem surname_long_o_spec :
    (∀ (ln : String) (lv : Bool),
        pyDictGet KATAKANA_LASTNAME_OVERRIDE (pyLowerS ln) = none →
        kanaLastName ln lv true =
          apply_surname_long_o (pyLowerS ln) (roman_to_katakana ln lv)) ∧
    (∀ lnl k : String, LONG_O_SURNAMES.contains lnl = true →
        strEndsWith lnl "to" = true → strEndsWith k "ト" = true →
        strEndsWith k "トウ" = false →
        apply_surname_long_o lnl k = k ++ "ウ") ∧
    (∀ lnl k : String, LONG_O_SURNAMES.contains lnl = true →
        strEndsWith lnl "to" = false → strEndsWith lnl "do" = true →
        strEndsWith k "ド" = true → strEndsWith k "ドウ" = false →
        apply_surname_long_o lnl k = k ++ "ウ") ∧
    (∀ lnl k : String, LONG_O_SURNAMES.contains lnl = false →
        apply_surname_long_o lnl k = k) ∧
    (∀ lv slo, kanaLastName "saito" lv slo = "サイトウ") := by
  refine ⟨fun ln lv h => ?_, fun lnl k h1 h2 h3 h4 => ?_, fun lnl k h1 h2 h3 h4 h5 => ?_,
    fun lnl k h1 => ?_, fun lv slo => kanaLastName_override (v := "サイトウ") (by rfl)⟩
  · simp [kanaLastName, h, pyOrElse]
  · have h1m : lnl ∈ LONG_O_SURNAMES := by simpa using h1
    simp [apply_surname_long_o, h1m, h2, h3, h4]
  · have h1m : lnl ∈ LONG_O_SURNAMES := by simpa using h1
    simp [apply_surname_long_o, h1m, h2, h3, h4, h5]
  · have h1m : lnl ∉ LONG_O_SURNAMES := by simpa using h1
    simp [apply_surname_long_o, h1m]

/-- Witness for C3: the only Long-O surname outside the override dictionary
(`"saitou"`) exercises the pipeline conjunct, and concrete inputs exercise
the post-processor conjuncts. -/
theorem surname_long_o_spec_witness :
    kanaLastName "saitou" true true =
      apply_surname_long_o (pyLowerS "saitou") (roman_to_katakana "saitou" true) ∧
    apply_surname_long_o "sato" "サト" = "サト" ++ "ウ" ∧
    apply_surname_long_o "sudo" "スド" = "スド" ++ "ウ" ∧
    apply_surname_long_o "homma" "ホンマ" = "ホンマ" ∧
    kanaLastName "saito" false false = "サイトウ" :=
  ⟨surname_long_o_spec.1 "saitou" true (by rfl),
   surname_long_o_spec.2.1 "sato" "サト" (by rfl) (by rfl) (by rfl) (by rfl),
   surname_long_o_spec.2.2.1 "sudo" "スド" (by rfl) (by rfl) (by rfl) (by rfl) (by rfl),
   surname_long_o_spec.2.2.2.1 "homma" "ホンマ" (by rfl),
   surname_long_o_spec.2.2.2.2 false false⟩

/-- C10 (counterexample): the given-name override dictionary itself contains
the key `"yu-ki"`, which has a character that is not an ASCII letter; that
token therefore matches the override (yielding `"ユウキ"`) instead of taking
the rule-based path (which would yield `"ユキ"`), refuting the claim that a
token containing a non-letter character never matches an override
dictionary. -/
theorem override_on_raw_token_counterexample :
    '-' ∈ "yu-ki".data ∧ '-'.isAlpha = false ∧ isAsciiLowerAlpha '-' = false ∧
    pyDictGet KATAKANA_FIRSTNAME_OVERRIDE (pyLowerS "yu-ki") = some "ユウキ" ∧
    kanaFirstName "yu-ki" true = "ユウキ" ∧
    roman_to_katakana (ryoRewrite (pyLowerS "yu-ki")) true = "ユキ" :=
  ⟨by decide, by decide, by decide, by rfl,
   kanaFirstName_override (by rfl), by rfl⟩

/-- C10 (amended): every key of the family-name override dictionary consists
solely of lowercase ASCII letters, so a family token whose lowercased form
contains any other character never matches the family override and always
takes the rule-based path (`"homma"` resolves via the override to
`"ホンマ"`, while `"homma."` bypasses it and rule-converts to `"ホッマ"`);
for given names the same bypass holds except when the token itself is one of
the non-letter keys present in the given-name dictionary, such as
`"yu-ki"` → `"ユウキ"`. -/
theorem override_on_raw_token_amended :
    (∀ p ∈ KATAKANA_LASTNAME_OVERRIDE, p.1.data.all isAsciiLowerAlpha = true) ∧
    (∀ (ln : String) (lv slo : Bool),
        (∃ c ∈ (pyLowerS ln).data, isAsciiLowerAlpha c = false) →
        pyDictGet KATAKANA_LASTNAME_OVERRIDE (pyLowerS ln) = none ∧
        kanaLastName ln lv slo =
          (if slo then apply_surname_long_o (pyLowerS ln) (roman_to_katakana ln lv)
           else roman_to_katakana ln lv)) ∧
    (∀ lv slo, kanaLastName "homma" lv slo = "ホンマ") ∧
    (∀ lv slo, kanaLastName "homma." lv slo = "ホッマ") ∧
    (∀ p ∈ KATAKANA_FIRSTNAME_OVERRIDE,
        p.1.data.all isAsciiLowerAlpha = true ∨ p.1 ∈ HYPHEN_FIRSTNAME_KEYS) ∧
    (∀ (fn : String) (lv : Bool),
        (∃ c ∈ (pyLowerS fn).data, isAsciiLowerAlpha c = false) →
        HYPHEN_FIRSTNAME_KEYS.contains (pyLowerS fn) = false →
        pyDictGet KATAKANA_FIRSTNAME_OVERRIDE (pyLowerS fn) = none ∧
        kanaFirstName fn lv = roman_to_katakana (ryoRewrite (pyLowerS fn)) lv) ∧
    (∀ p ∈ HYPHEN_FIRSTNAME_KEYS, ∃ c ∈ p.data, isAsciiLowerAlpha c = false) ∧
    kanaFirstName "yu-ki" true = "ユウキ" := by
  have keys : ∀ p ∈ KATAKANA_LASTNAME_OVERRIDE, p.1.data.all isAsciiLowerAlpha = true :=
    List.all_eq_true.mp lastname_keys_alpha
  have keysF : ∀ p ∈ KATAKANA_FIRSTNAME_OVERRIDE,
      p.1.data.all isAsciiLowerAlpha = true ∨ p.1 ∈ HYPHEN_FIRSTNAME_KEYS := by
    intro p hp
    have h := List.all_eq_true.mp firstname_keys_alpha_or_hyphen p hp
    simpa using h
  refine ⟨keys, fun ln lv slo hbad => ?_, fun lv slo => kanaLastName_override (by rfl),
    fun lv slo => by cases lv <;> cases slo <;> rfl,
    keysF, fun fn lv hbad hten => ?_, by decide,
    kanaFirstName_override (by rfl)⟩
  · obtain ⟨c, hc, hca⟩ := hbad
    have hnone : pyDictGet KATAKANA_LASTNAME_OVERRIDE (pyLowerS ln) = none := by
      rcases hv : pyDictGet KATAKANA_LASTNAME_OVERRIDE (pyLowerS ln) with _ | v
      · rfl
      · exfalso
        have hmem := pyDictGet_mem hv
        have hall := keys _ hmem
        have := List.all_eq_true.mp hall _ hc
        rw [hca] at this
        cases this
    refine ⟨hnone, ?_⟩
    simp [kanaLastName, hnone, pyOrElse]
  · obtain ⟨c, hc, hca⟩ := hbad
    have htenm : pyLowerS fn ∉ HYPHEN_FIRSTNAME_KEYS := by simpa using hten
    have hnone : pyDictGet KATAKANA_FIRSTNAME_OVERRIDE (pyLowerS fn) = none := by
      rcases hv : pyDictGet KATAKANA_FIRSTNAME_OVERRIDE (pyLowerS fn) with _ | v
      · rfl
      · exfalso
        have hmem := pyDictGet_mem hv
        rcases keysF _ hmem with hall | hhy
        · have := List.all_eq_true.mp hall _ hc
          rw [hca] at this
          cases this
        · exact htenm hhy
    refine ⟨hnone, ?_⟩
    simp [kanaFirstName, hnone]

/-- Witness for C10 (amended): the family token `"homma."` and the given
token `"ken.ichi"` both contain a non-letter and bypass the overrides; the
key disjunction is exercised on a plain key and on a hyphenated key. -/
theorem override_on_raw_token_amended_witness :
    (("abe", "アベ") ∈ KATAKANA_LASTNAME_OVERRIDE ∧ "abe".data.all isAsciiLowerAlpha = true) ∧
    (pyDictGet KATAKANA_LASTNAME_OVERRIDE (pyLowerS "homma.") = none ∧
      kanaLastName "homma." true true =
        (if true then apply_surname_long_o (pyLowerS "homma.") (roman_to_katakana "homma." true)
         else roman_to_katakana "homma." true)) ∧
    (("ai", "アイ") ∈ KATAKANA_FIRSTNAME_OVERRIDE ∧
      ("ai".data.all isAsciiLowerAlpha = true ∨ ("ai" : String) ∈ HYPHEN_FIRSTNAME_KEYS)) ∧
    (("yu-ki", "ユウキ") ∈ KATAKANA_FIRSTNAME_OVERRIDE ∧
      ("yu-ki".data.all isAsciiLowerAlpha = true ∨ ("yu-ki" : String) ∈ HYPHEN_FIRSTNAME_KEYS)) ∧
    (pyDictGet KATAKANA_FIRSTNAME_OVERRIDE (pyLowerS "ken.ichi") = none ∧
      kanaFirstName "ken.ichi" true =
        roman_to_katakana (ryoRewrite (pyLowerS "ken.ichi")) true) ∧
    (∃ c ∈ "yu-ki".data, isAsciiLowerAlpha c = false) :=
  ⟨⟨by decide, override_on_raw_token_amended.1 ("abe", "アベ") (by decide)⟩,
   override_on_raw_token_amended.2.1 "homma." true true ⟨'.', by decide, by decide⟩,
   ⟨by decide, override_on_raw_token_amended.2.2.2.2.1 ("ai", "アイ") (by decide)⟩,
   ⟨by decide, override_on_raw_token_amended.2.2.2.2.1 ("yu-ki", "ユウキ") (by decide)⟩,
   override_on_raw_token_amended.2.2.2.2.2.1 "ken.ichi" true
     ⟨'.', by decide, by decide⟩ (by decide),
   override_on_raw_token_amended.2.2.2.2.2.2.1 "yu-ki" (by decide)⟩

theorem kanaLoopF_succ_eq :
    ∀ (n : Nat) (l : List Char), l.length ≤ n → kanaLoopF (n + 1) l = kanaLoopF n l := by
  intro n
  induction n with
  | zero =>
    intro l h
    have hl : l = [] := List.eq_nil_of_length_eq_zero (Nat.le_zero.mp h)
    subst hl
    rfl
  | succ n ih =>
    intro l h
    cases l with
    | nil => rfl
    | cons c rest =>
      simp only [kanaLoopF]
      have hd : (rest.drop ((kanaStep (c :: rest)).2 - 1)).length ≤ n := by
        have h1 := List.length_drop ((kanaStep (c :: rest)).2 - 1) rest
        simp only [List.length_cons] at h
        omega
      rw [ih _ hd]

theorem kanaLoopF_ge :
    ∀ (n : Nat) (l : List Char), l.length ≤ n → kanaLoopF n l = kanaLoopF l.length l := by
  intro n
  induction n with
  | zero =>
    intro l h
    have hl : l = [] := List.eq_nil_of_length_eq_zero (Nat.le_zero.mp h)
    subst hl
    rfl
  | succ n ih =>
    intro l h
    rcases Nat.lt_or_ge l.length (n + 1) with hlt | hge
    · have hle : l.length ≤ n := Nat.lt_succ_iff.mp hlt
      rw [kanaLoopF_succ_eq n l hle, ih l hle]
    · have heq : l.length = n + 1 := Nat.le_antisymm h hge
      rw [heq]

theorem kanaLoopF_length_isSome :
    ∀ (n : Nat) (l : List Char), l.length ≤ n → (kanaLoopF l.length l).isSome = true := by
  intro n
  induction n with
  | zero =>
    intro l h
    have hl : l = [] := List.eq_nil_of_length_eq_zero (Nat.le_zero.mp h)
    subst hl
    rfl
  | succ n ih =>
    intro l h
    cases l with
    | nil => rfl
    | cons c rest =>
      simp only [List.length_cons, kanaLoopF]
      have hdr : (rest.drop ((kanaStep (c :: rest)).2 - 1)).length ≤ rest.length := by
        simp [List.length_drop]
      have hdn : (rest.drop ((kanaStep (c :: rest)).2 - 1)).length ≤ n := by
        simp only [List.length_cons] at h
        omega
      rw [kanaLoopF_ge rest.length _ hdr]
      have hs := ih _ hdn
      rcases hv : kanaLoopF (rest.drop ((kanaStep (c :: rest)).2 - 1)).length
          (rest.drop ((kanaStep (c :: rest)).2 - 1)) with _ | t
      · rw [hv] at hs; simp at hs
      · rfl

theorem kanaLoopF_length_eq_some (l : List Char) :
    kanaLoopF l.length l = some (kanaLoop l) := by
  have h := kanaLoopF_length_isSome l.length l (Nat.le_refl _)
  rcases hv : kanaLoopF l.length l with _ | t
  · rw [hv] at h; cases h
  · unfold kanaLoop; rw [hv]; rfl

/-- The loop equation of the segmentation loop: one `kanaStep`, then the
loop on the remaining characters.  Holds because length-many units of fuel
always suffice. -/
theorem kanaLoop_cons (c : Char) (rest : List Char) :
    kanaLoop (c :: rest) =
      (kanaStep (c :: rest)).1 ++ kanaLoop (rest.drop ((kanaStep (c :: rest)).2 - 1)) := by
  have hd : (rest.drop ((kanaStep (c :: rest)).2 - 1)).length ≤ rest.length := by
    simp [List.length_drop]
  have h1 : kanaLoopF (c :: rest).length (c :: rest) =
      (kanaLoopF rest.length (rest.drop ((kanaStep (c :: rest)).2 - 1))).map
        (fun t => (kanaStep (c :: rest)).1 ++ t) := by
    simp only [List.length_cons, kanaLoopF]
  rw [kanaLoopF_ge rest.length _ hd] at h1
  rw [kanaLoopF_length_eq_some] at h1
  rw [kanaLoopF_length_eq_some] at h1
  simp only [Option.map_some'] at h1
  exact Option.some.inj h1

theorem vowelOrDrop_adv (c : Char) : 1 ≤ (vowelOrDrop c).2 := by
  unfold vowelOrDrop
  repeat' split
  all_goals simp

theorem nStep2_adv (rest : List Char) : 1 ≤ (nStep2 rest).2 := by
  unfold nStep2
  repeat' split
  all_goals simp

theorem nStep_adv (rest : List Char) : 1 ≤ (nStep rest).2 := by
  unfold nStep
  repeat' split
  all_goals first
    | exact nStep2_adv _
    | simp

theorem cvStep_adv (c : Char) (rest : List Char) : 1 ≤ (cvStep c rest).2 := by
  unfold cvStep
  repeat' split
  all_goals first
    | exact vowelOrDrop_adv _
    | simp

theorem kanaStep_adv (l : List Char) : 1 ≤ (kanaStep l).2 := by
  unfold kanaStep
  repeat' split
  all_goals first
    | exact nStep_adv _
    | exact cvStep_adv _ _
    | simp

/-- C2: the conversion is total — every iteration of the segmentation loop
advances the cursor by at least one character, so length-many iterations
always suffice (`kanaLoopF` with fuel `l.length` never runs out), and
`roman_to_katakana` returns a plain string on every input and both flag
values; malformed input at worst yields an empty or partial result (empty,
all-digit, and unmatched-letter inputs are shown). -/
theorem roman_to_katakana_total :
    (∀ l : List Char, 1 ≤ (kanaStep l).2) ∧
    (∀ (n : Nat) (l : List Char), l.length ≤ n → kanaLoopF n l = some (kanaLoop l)) ∧
    (∀ lv : Bool,
      roman_to_katakana "" lv = "" ∧
      roman_to_katakana "123" lv = "" ∧
      roman_to_katakana "x" lv = "" ∧
      roman_to_katakana "素" lv = "") := by
  refine ⟨kanaStep_adv, fun n l h => ?_, fun lv => ?_⟩
  · rw [kanaLoopF_ge n l h, kanaLoopF_length_eq_some]
  · cases lv <;> exact ⟨rfl, rfl, rfl, rfl⟩

/-- Witness for C2 at concrete inputs. -/
theorem roman_to_katakana_total_witness :
    1 ≤ (kanaStep ['k']).2 ∧
    kanaLoopF 5 ['a', 'b', 'c'] = some (kanaLoop ['a', 'b', 'c']) ∧
    roman_to_katakana "123" true = "" :=
  ⟨roman_to_katakana_total.1 ['k'],
   roman_to_katakana_total.2.1 5 ['a', 'b', 'c'] (by decide),
   (roman_to_katakana_total.2.2 true).2.1⟩

theorem tri_head_n_none (c : Char) (t : List Char) (hc : c ≠ 'y') :
    pyDictGetC TRI_MAP ('n' :: c :: t) = none := by
  simp [pyDictGetC, TRI_MAP, pyDictGetCAux, hc, Ne.symm hc]

theorem tri_ny_none (c : Char) (t : List Char) (h1 : c ≠ 'a') (h2 : c ≠ 'u')
    (h3 : c ≠ 'o') : pyDictGetC TRI_MAP ('n' :: 'y' :: c :: t) = none := by
  simp [pyDictGetC, TRI_MAP, pyDictGetCAux, Ne.symm h1, Ne.symm h2, Ne.symm h3]

theorem di_head_n_none (t : List Char) : pyDictGetC DI_MAP ('n' :: t) = none := by
  simp [pyDictGetC, DI_MAP, pyDictGetCAux]

theorem kanaLoop_n_vowel_case (v : Char) (k : String) (rest : List Char)
    (hvy : v ≠ 'y')
    (hvow : v = 'a' ∨ v = 'i' ∨ v = 'u' ∨ v = 'e' ∨ v = 'o')
    (hb : pyDictGetC BASE ['n', v] = some k)
    (hk : (k == "") = false) :
    kanaLoop ('n' :: v :: rest) = k :: kanaLoop rest := by
  have hg : isGeminate 'n' (v :: rest) = false := by simp [isGeminate]
  have htri : pyDictGetC TRI_MAP ('n' :: v :: rest.take 1) = none :=
    tri_head_n_none v (rest.take 1) hvy
  have hdi3 : pyDictGetC DI_MAP ('n' :: v :: rest.take 1) = none := di_head_n_none _
  have hdi2 : pyDictGetC DI_MAP ['n', v] = none := di_head_n_none _
  have hs : kanaStep ('n' :: v :: rest) = ([k], 2) := by
    simp [kanaStep, hg, htri, hdi3, hdi2, nStep, hvow, hb, hk]
  rw [kanaLoop_cons, hs]
  simp

/-- C4: the preprocessing of `roman_to_katakana` applies, in order:
lowercasing, the macron/circumflex replacement (doubling `ā/ī/ū/ē` and
`â/î/û/ê`, but sending `ō/ô` to `"ou"`, never `"oo"`), removal of every
character outside `[a-z]`, and the rewrite of `"oh"` to `"ou"` exactly when
followed by a non-vowel letter or end of string; `"katō"` is converted via
`"katou"`. -/
theorem preprocess_order_spec :
    (macronChar 'ā' = ['a', 'a'] ∧ macronChar 'ī' = ['i', 'i'] ∧
     macronChar 'ū' = ['u', 'u'] ∧ macronChar 'ē' = ['e', 'e'] ∧
     macronChar 'â' = ['a', 'a'] ∧ macronChar 'î' = ['i', 'i'] ∧
     macronChar 'û' = ['u', 'u'] ∧ macronChar 'ê' = ['e', 'e'] ∧
     macronChar 'ō' = ['o', 'u'] ∧ macronChar 'ô' = ['o', 'u']) ∧
    (∀ (c : Char) (l : List Char), isAsciiLowerAlpha c = false →
      cleanLetters (c :: l) = cleanLetters l) ∧
    (∀ (c : Char) (rest : List Char), OH_CONSONANTS.contains c = true →
      ohSub ('o' :: 'h' :: c :: rest) = 'o' :: 'u' :: ohSub (c :: rest)) ∧
    ohSub ['o', 'h'] = ['o', 'u'] ∧
    (∀ (c : Char) (rest : List Char), VOWELS.contains c = true →
      ohSub ('o' :: 'h' :: c :: rest) = 'o' :: 'h' :: ohSub (c :: rest)) ∧
    preprocessRoman "katō" = ['k', 'a', 't', 'o', 'u'] ∧
    preprocessRoman "Katō-1" = ['k', 'a', 't', 'o', 'u'] ∧
    preprocessRoman "OH" = ['o', 'u'] ∧
    preprocessRoman "o-h" = ['o', 'u'] ∧
    (∀ lv, roman_to_katakana "katō" lv = "カトウ") := by
  refine ⟨⟨rfl, rfl, rfl, rfl, rfl, rfl, rfl, rfl, rfl, rfl⟩,
    fun c l h => by simp [cleanLetters, h],
    fun c rest h => ?_, rfl, fun c rest h => ?_, rfl, rfl, rfl, rfl,
    fun lv => by cases lv <;> rfl⟩
  · have hm : c ∈ OH_CONSONANTS := by simpa using h
    simp [ohSub, hm]
  · have hv : c = 'a' ∨ c = 'e' ∨ c = 'i' ∨ c = 'o' ∨ c = 'u' := by
      simpa [VOWELS] using h
    rcases hv with h1 | h1 | h1 | h1 | h1 <;> subst h1 <;> simp [ohSub, OH_CONSONANTS]

/-- Witness for C4 at concrete characters. -/
theorem preprocess_order_spec_witness :
    cleanLetters ['1', 'a'] = cleanLetters ['a'] ∧
    ohSub ['o', 'h', 'k'] = 'o' :: 'u' :: ohSub ['k'] ∧
    ohSub ['o', 'h', 'a'] = 'o' :: 'h' :: ohSub ['a'] :=
  ⟨preprocess_order_spec.2.1 '1' ['a'] (by decide),
   preprocess_order_spec.2.2.1 'k' [] (by decide),
   preprocess_order_spec.2.2.2.2.1 'a' [] (by decide)⟩

/-- C5: at a cursor whose character equals the next one, with both
consonants and not `"n"`, exactly one `"ッ"` is emitted and the cursor
advances by one (only the first duplicate is consumed); hence `"kitta"`
converts to `"キッタ"`. -/
theorem geminate_spec :
    (∀ (c : Char) (rest : List Char), VOWELS.contains c = false → c ≠ 'n' →
      kanaLoop (c :: c :: rest) = "ッ" :: kanaLoop (c :: rest)) ∧
    (∀ lv, roman_to_katakana "kitta" lv = "キッタ") := by
  refine ⟨fun c rest h1 h2 => ?_, fun lv => by cases lv <;> rfl⟩
  have h1m : c ∉ VOWELS := by simpa using h1
  have hg : isGeminate c (c :: rest) = true := by simp [isGeminate, h1m, h2]
  have hs : kanaStep (c :: c :: rest) = (["ッ"], 1) := by simp [kanaStep, hg]
  rw [kanaLoop_cons, hs]
  simp

/-- Witness for C5 at `c = 't'`. -/
theorem geminate_spec_witness :
    kanaLoop ['t', 't', 'a'] = "ッ" :: kanaLoop ['t', 'a'] ∧
    roman_to_katakana "kitta" true = "キッタ" :=
  ⟨geminate_spec.1 't' ['a'] (by decide) (by decide), geminate_spec.2 true⟩

/-- C6: the segmentation checks run in fixed precedence (geminate, 3-letter
cluster table, irregular table with 3- then 2-character windows, then the
generic consonant+vowel lookup), so `"kya"` is always consumed as the
cluster `"キャ"` — never as `"ki"` + `"ya"` — and `"kyaku"` converts to
`"キャク"`. -/
theorem cluster_precedence_spec :
    (∀ rest : List Char, kanaLoop ('k' :: 'y' :: 'a' :: rest) = "キャ" :: kanaLoop rest) ∧
    (∀ lv, roman_to_katakana "kyaku" lv = "キャク") := by
  refine ⟨fun rest => ?_, fun lv => by cases lv <;> rfl⟩
  have hg : isGeminate 'k' ('y' :: 'a' :: rest) = false := by simp [isGeminate]
  have htake : ('k' :: 'y' :: 'a' :: rest).take 3 = ['k', 'y', 'a'] := rfl
  have hlook : pyDictGetC TRI_MAP ['k', 'y', 'a'] = some "キャ" := rfl
  have hs : kanaStep ('k' :: 'y' :: 'a' :: rest) = (["キャ"], 3) := by
    simp [kanaStep, hg, htake, hlook]
  rw [kanaLoop_cons, hs]
  simp

/-- C7: at an `"n"` that no earlier check consumed: before a vowel the
regular na/ni/nu/ne/no syllable is emitted and the cursor advances 2;
before `"y"` (when the 3-letter cluster table did not match) `"ニ"` is
emitted and the cursor advances only 1, so the `"y"` is reprocessed;
otherwise the standalone `"ン"` is emitted and the cursor advances 1. -/
theorem n_handling_spec :
    (∀ (v : Char) (rest : List Char), v ∈ (['a', 'i', 'u', 'e', 'o'] : List Char) →
      ∃ k, pyDictGetC BASE ['n', v] = some k ∧
        kanaLoop ('n' :: v :: rest) = k :: kanaLoop rest) ∧
    (∀ (c : Char) (rest : List Char), c ≠ 'a' → c ≠ 'u' → c ≠ 'o' →
      kanaLoop ('n' :: 'y' :: c :: rest) = "ニ" :: kanaLoop ('y' :: c :: rest)) ∧
    kanaLoop ['n', 'y'] = "ニ" :: kanaLoop ['y'] ∧
    (∀ (c : Char) (rest : List Char),
      (['a', 'i', 'u', 'e', 'o'] : List Char).contains c = false → c ≠ 'y' →
      kanaLoop ('n' :: c :: rest) = "ン" :: kanaLoop (c :: rest)) ∧
    kanaLoop ['n'] = ["ン"] := by
  refine ⟨fun v rest hv => ?_, fun c rest h1 h2 h3 => ?_, by rfl,
    fun c rest hc hy => ?_, by rfl⟩
  · have hv2 : v = 'a' ∨ v = 'i' ∨ v = 'u' ∨ v = 'e' ∨ v = 'o' := by simpa using hv
    rcases hv2 with h | h | h | h | h <;> subst h
    · exact ⟨"ナ", rfl, kanaLoop_n_vowel_case 'a' "ナ" rest (by decide) (Or.inl rfl) (by rfl) (by rfl)⟩
    · exact ⟨"ニ", rfl, kanaLoop_n_vowel_case 'i' "ニ" rest (by decide) (by simp) (by rfl) (by rfl)⟩
    · exact ⟨"ヌ", rfl, kanaLoop_n_vowel_case 'u' "ヌ" rest (by decide) (by simp) (by rfl) (by rfl)⟩
    · exact ⟨"ネ", rfl, kanaLoop_n_vowel_case 'e' "ネ" rest (by decide) (by simp) (by rfl) (by rfl)⟩
    · exact ⟨"ノ", rfl, kanaLoop_n_vowel_case 'o' "ノ" rest (by decide) (by simp) (by rfl) (by rfl)⟩
  · have hg : isGeminate 'n' ('y' :: c :: rest) = false := by simp [isGeminate]
    have htri : pyDictGetC TRI_MAP ['n', 'y', c] = none := tri_ny_none c [] h1 h2 h3
    have hdi3 : pyDictGetC DI_MAP ['n', 'y', c] = none := di_head_n_none ['y', c]
    have hdi2 : pyDictGetC DI_MAP ['n', 'y'] = none := di_head_n_none ['y']
    have hs : kanaStep ('n' :: 'y' :: c :: rest) = (["ニ"], 1) := by
      simp [kanaStep, hg, htri, hdi3, hdi2, nStep, nStep2]
    rw [kanaLoop_cons, hs]
    simp
  · have hcd : ¬(c = 'a' ∨ c = 'i' ∨ c = 'u' ∨ c = 'e' ∨ c = 'o') := by simpa using hc
    have hg : isGeminate 'n' (c :: rest) = false := by simp [isGeminate]
    have htri : pyDictGetC TRI_MAP ('n' :: c :: rest.take 1) = none :=
      tri_head_n_none c _ hy
    have hdi3 : pyDictGetC DI_MAP ('n' :: c :: rest.take 1) = none := di_head_n_none _
    have hdi2 : pyDictGetC DI_MAP ['n', c] = none := di_head_n_none _
    have hs : kanaStep ('n' :: c :: rest) = (["ン"], 1) := by
      simp [kanaStep, hg, htri, hdi3, hdi2, nStep, nStep2, hcd, hy]
    rw [kanaLoop_cons, hs]
    simp

/-- Witness for C7 at concrete characters. -/
theorem n_handling_spec_witness :
    (∃ k, pyDictGetC BASE ['n', 'a'] = some k ∧
      kanaLoop ['n', 'a'] = k :: kanaLoop []) ∧
    kanaLoop ['n', 'y', 'e'] = "ニ" :: kanaLoop ['y', 'e'] ∧
    kanaLoop ['n', 't', 'a'] = "ン" :: kanaLoop ['t', 'a'] :=
  ⟨n_handling_spec.1 'a' [] (by decide),
   n_handling_spec.2.1 'e' [] (by decide) (by decide) (by decide),
   n_handling_spec.2.2.2.1 't' ['a'] (by decide) (by decide)⟩

/-- C8: for a given name missing from the override dictionary, the `ryo`
pre-conversion heuristic rewrites every `"ryo"` followed by a consonant or
end of string to `"ryou"` and every `"ryo"` followed by `"i"` to `"ryoui"`
(the `"i"` is not consumed), and only then runs the core converter on the
rewritten token. -/
theorem ryo_rewrite_spec :
    (∀ (c : Char) (rest : List Char), OH_CONSONANTS.contains c = true →
      ryoSub1 ('r' :: 'y' :: 'o' :: c :: rest) =
        'r' :: 'y' :: 'o' :: 'u' :: ryoSub1 (c :: rest)) ∧
    ryoSub1 ['r', 'y', 'o'] = ['r', 'y', 'o', 'u'] ∧
    (∀ rest : List Char,
      ryoSub2 ('r' :: 'y' :: 'o' :: 'i' :: rest) =
        'r' :: 'y' :: 'o' :: 'u' :: 'i' :: ryoSub2 ('i' :: rest)) ∧
    (∀ (fn : String) (lv : Bool),
      pyDictGet KATAKANA_FIRSTNAME_OVERRIDE (pyLowerS fn) = none →
      kanaFirstName fn lv = roman_to_katakana (ryoRewrite (pyLowerS fn)) lv) := by
  refine ⟨fun c rest h => ?_, by rfl, fun rest => by rfl, fun fn lv h => ?_⟩
  · have hm : c ∈ OH_CONSONANTS := by simpa using h
    simp [ryoSub1, hm]
  · simp [kanaFirstName, h]

/-- Witness for C8 at concrete inputs. -/
theorem ryo_rewrite_spec_witness :
    ryoSub1 ['r', 'y', 'o', 't', 'a'] = 'r' :: 'y' :: 'o' :: 'u' :: ryoSub1 ['t', 'a'] ∧
    kanaFirstName "qryo" true = roman_to_katakana (ryoRewrite (pyLowerS "qryo")) true :=
  ⟨ryo_rewrite_spec.1 't' ['a'] (by decide),
   ryo_rewrite_spec.2.2.2 "qryo" true (by rfl)⟩
